import Mathlib

/-!
Verification of the GBEmu Game Boy emulator core (Rust) against its
specification.  Each hardware unit relevant to the verified properties is
shallowly embedded: Rust `u8`/`u16` fields become `Nat` with explicit
wrap-around (`% 256`, `% 65536`) at the points where the source relies on
wrapping, struct mutation becomes functional record update, and the unit
step functions are translated arm by arm from the source.

Source files embedded here:
 * src/core/src/timer/mod.rs      (`Timer`)
 * src/core/src/cpu/mod.rs        (ALU helpers `add`, `sub`, `cp`, `xor`)
 * src/core/src/apu/mod.rs        (`Channel4`, noise LFSR)
 * src/core/src/cartridge/mod.rs  (`Cartridge`, MBC banking)
 * src/core/src/mmu/mod.rs        (`Mmu`, address decode, OAM DMA)
 * src/core/src/ppu/mod.rs        (`Ppu`, mode state machine, STAT line)
 * src/core/src/lib.rs            (`GameBoy` wiring of CPU writes)
-/

/-! ## Timer (src/core/src/timer/mod.rs) -/

/-- Timer state: internal 16-bit divider, TIMA/TMA/TAC registers and the
two overflow bookkeeping flags, exactly the fields of `struct Timer`. -/
structure Timer where
  div_counter : Nat
  tima : Nat
  tma : Nat
  tac : Nat
  tima_overflow : Bool
  tima_reload_cycle : Bool
deriving Repr, DecidableEq

/-- Bit of the divider selected by TAC bits 1..0 (`match self.tac & 0x03`). -/
def tacBitPos (tac : Nat) : Nat :=
  match tac &&& 0x03 with
  | 0 => 9
  | 1 => 3
  | 2 => 5
  | _ => 7

/-- One iteration of the `for _ in 0..cycles` loop body of `Timer::step`:
reload check, overflow promotion, divider increment, falling-edge TIMA
increment.  Returns the updated timer and whether this cycle requested the
timer interrupt. -/
def Timer.stepCycle (t : Timer) : Timer × Bool :=
  let p1 :=
    if t.tima_reload_cycle then
      ({ t with tima_reload_cycle := false, tima := t.tma }, true)
    else (t, false)
  let t1 := p1.1
  let t2 :=
    if t1.tima_overflow then
      { t1 with tima_overflow := false, tima_reload_cycle := true }
    else t1
  let old_div := t2.div_counter
  let t3 := { t2 with div_counter := (t2.div_counter + 1) % 65536 }
  let t4 :=
    if t3.tac &&& 0x04 ≠ 0 then
      let bp := tacBitPos t3.tac
      let old_bit := (old_div >>> bp) &&& 1
      let new_bit := (t3.div_counter >>> bp) &&& 1
      if old_bit = 1 ∧ new_bit = 0 then
        let tima := (t3.tima + 1) % 256
        if tima = 0 then { t3 with tima := tima, tima_overflow := true }
        else { t3 with tima := tima }
      else t3
    else t3
  (t4, p1.2)

/-- `Timer::step(cycles)`: iterate `stepCycle`, OR-ing the interrupt requests. -/
def Timer.step (t : Timer) : Nat → Timer × Bool
  | 0 => (t, false)
  | n+1 =>
    let s1 := t.stepCycle
    let rest := s1.1.step n
    (rest.1, s1.2 || rest.2)

/-- `Timer::read_div`: upper 8 bits of the divider. -/
def Timer.read_div (t : Timer) : Nat :=
  (t.div_counter >>> 8) &&& 0xFF

/-- `Timer::write_div`: writing any value resets the whole 16-bit counter,
with a spurious TIMA increment when the timer is enabled and the selected
divider bit was 1. -/
def Timer.write_div (t : Timer) : Timer :=
  let bp := tacBitPos t.tac
  let t1 :=
    if t.tac &&& 0x04 ≠ 0 ∧ (t.div_counter >>> bp) &&& 1 = 1 then
      let tima := (t.tima + 1) % 256
      if tima = 0 then { t with tima := tima, tima_overflow := true }
      else { t with tima := tima }
    else t
  { t1 with div_counter := 0 }

/-- `Timer::write_tima`: ignored during the reload cycle, otherwise stores
the value and cancels a pending overflow. -/
def Timer.write_tima (t : Timer) (value : Nat) : Timer :=
  if ¬t.tima_reload_cycle then
    { t with tima := value, tima_overflow := false }
  else t

/-- `Timer::write_tma`: stores TMA; during the reload cycle TIMA receives
the new value as well. -/
def Timer.write_tma (t : Timer) (value : Nat) : Timer :=
  let t1 := { t with tma := value }
  if t1.tima_reload_cycle then { t1 with tima := value } else t1

/-- Condition under which the next divider increment produces a falling
edge on the TAC-selected bit (the `old_bit == 1 && new_bit == 0` test of
`Timer::step`, including the enable check). -/
def FallingEdge (tac div_counter : Nat) : Prop :=
  tac &&& 0x04 ≠ 0 ∧
    (div_counter >>> tacBitPos tac) &&& 1 = 1 ∧
    (((div_counter + 1) % 65536) >>> tacBitPos tac) &&& 1 = 0

instance (tac div_counter : Nat) : Decidable (FallingEdge tac div_counter) := by
  unfold FallingEdge
  infer_instance

/-- The TMA register is untouched by a timer cycle. -/
theorem Timer.stepCycle_tma (t : Timer) : (t.stepCycle).1.tma = t.tma := by
  obtain ⟨d, ti, tm, ta, ov, rc⟩ := t
  simp only [Timer.stepCycle]
  repeat' split
  all_goals rfl

/-- Characterization of a timer cycle started in the overflow-pending
state with TIMA = 0: the pending flag is promoted to reload-in-progress,
no interrupt is requested, and TIMA is bumped to 1 exactly when the
divider increment produces a falling edge. -/
theorem Timer.stepCycle_pending (d tm ta : Nat) :
    (Timer.mk d 0 tm ta true false).stepCycle =
      ((if FallingEdge ta d
          then Timer.mk ((d + 1) % 65536) 1 tm ta false true
          else Timer.mk ((d + 1) % 65536) 0 tm ta false true), false) := by
  have key : (Timer.mk d 0 tm ta true false).stepCycle =
      ((if ta &&& 0x04 ≠ 0 then
          (if (d >>> tacBitPos ta) &&& 1 = 1 ∧
              (((d + 1) % 65536) >>> tacBitPos ta) &&& 1 = 0
            then Timer.mk ((d + 1) % 65536) 1 tm ta false true
            else Timer.mk ((d + 1) % 65536) 0 tm ta false true)
        else Timer.mk ((d + 1) % 65536) 0 tm ta false true), false) := rfl
  rw [key]
  by_cases hE : FallingEdge ta d
  · rw [if_pos hE.1, if_pos ⟨hE.2.1, hE.2.2⟩, if_pos hE]
  · rw [if_neg hE]
    by_cases h1 : ta &&& 0x04 ≠ 0
    · have hab : ¬((d >>> tacBitPos ta) &&& 1 = 1 ∧
          (((d + 1) % 65536) >>> tacBitPos ta) &&& 1 = 0) :=
        fun hab => hE ⟨h1, hab.1, hab.2⟩
      rw [if_pos h1, if_neg hab]
    · rw [if_neg h1]

/-- Characterization of a timer cycle started in the reload-in-progress
state: TIMA is reloaded from TMA, the interrupt is requested, and the
divider increment may still bump the freshly reloaded TIMA on a falling
edge. -/
theorem Timer.stepCycle_reload (d ti tm ta : Nat) :
    (Timer.mk d ti tm ta false true).stepCycle =
      ((if FallingEdge ta d then
          (if (tm + 1) % 256 = 0
            then Timer.mk ((d + 1) % 65536) 0 tm ta true false
            else Timer.mk ((d + 1) % 65536) ((tm + 1) % 256) tm ta false false)
        else Timer.mk ((d + 1) % 65536) tm tm ta false false), true) := by
  have key : (Timer.mk d ti tm ta false true).stepCycle =
      ((if ta &&& 0x04 ≠ 0 then
          (if (d >>> tacBitPos ta) &&& 1 = 1 ∧
              (((d + 1) % 65536) >>> tacBitPos ta) &&& 1 = 0
            then
              (if (tm + 1) % 256 = 0
                then Timer.mk ((d + 1) % 65536) ((tm + 1) % 256) tm ta true false
                else Timer.mk ((d + 1) % 65536) ((tm + 1) % 256) tm ta false false)
            else Timer.mk ((d + 1) % 65536) tm tm ta false false)
        else Timer.mk ((d + 1) % 65536) tm tm ta false false), true) := rfl
  rw [key]
  by_cases hE : FallingEdge ta d
  · rw [if_pos hE.1, if_pos ⟨hE.2.1, hE.2.2⟩, if_pos hE]
    by_cases h4 : (tm + 1) % 256 = 0
    · rw [if_pos h4, if_pos h4, h4]
    · rw [if_neg h4, if_neg h4]
  · rw [if_neg hE]
    by_cases h1 : ta &&& 0x04 ≠ 0
    · have hab : ¬((d >>> tacBitPos ta) &&& 1 = 1 ∧
          (((d + 1) % 65536) >>> tacBitPos ta) &&& 1 = 0) :=
        fun hab => hE ⟨h1, hab.1, hab.2⟩
      rw [if_pos h1, if_neg hab]
    · rw [if_neg h1]

/-- Concrete timer used for the C2 analysis: TAC selects divider bit 3,
the divider is about to produce a falling edge, TIMA is 0xFF, TMA is 0x42. -/
def c2t0 : Timer := ⟨0x0F, 0xFF, 0x42, 0x05, false, false⟩

/-- Post-overflow-cycle state of `c2t0`. -/
def c2t1 : Timer := (c2t0.stepCycle).1

/-- C2, counterexample: stepping `c2t0` one cycle makes TIMA roll from
0xFF to 0x00 (the overflow cycle), but exactly one CPU cycle after that
cycle TIMA is still 0x00 (not reloaded from TMA = 0x42) and no timer
interrupt has been requested, contradicting the claim that the reload and
interrupt occur exactly one cycle after the overflow cycle. -/
theorem c2_counterexample :
    ((c2t0.stepCycle).1.tima = 0 ∧ (c2t0.stepCycle).1.tima_overflow = true) ∧
    (c2t1.stepCycle).2 = false ∧ (c2t1.stepCycle).1.tima = 0 ∧
    ¬((c2t1.stepCycle).2 = true ∧ (c2t1.stepCycle).1.tima = c2t0.tma) := by
  decide

/-- C2, amended: on the overflow cycle TIMA reads 0x00 (and the reload
flag is not yet set); one cycle after the overflow cycle no interrupt is
requested and the overflow-pending flag is promoted to reload-in-progress;
two cycles after the overflow cycle TIMA is reloaded from TMA and the
timer interrupt is requested (the reload value being TMA provided the
second cycle does not itself produce a falling-edge TIMA increment). -/
theorem c2_amended :
    (∀ t : Timer, t.tima_overflow = false → (t.stepCycle).1.tima_overflow = true →
      (t.stepCycle).1.tima = 0 ∧ (t.stepCycle).1.tima_reload_cycle = false) ∧
    (∀ t : Timer, t.tima_overflow = true → t.tima_reload_cycle = false →
      t.tima = 0 →
      (t.stepCycle).2 = false ∧
      (t.stepCycle).1.tima_reload_cycle = true ∧
      (t.stepCycle).1.tima_overflow = false ∧
      ((t.stepCycle).1.stepCycle).2 = true ∧
      (¬ FallingEdge (t.stepCycle).1.tac (t.stepCycle).1.div_counter →
        ((t.stepCycle).1.stepCycle).1.tima = t.tma)) := by
  constructor
  · intro t hov hov'
    obtain ⟨d, ti, tm, ta, ov, rc⟩ := t
    simp only at hov
    subst hov
    simp only [Timer.stepCycle] at hov' ⊢
    cases rc <;> simp_all <;> (repeat' split at hov') <;> simp_all
  · intro t hov hrc hti
    obtain ⟨d, ti, tm, ta, ov, rc⟩ := t
    simp only at hov hrc hti
    subst hov hrc hti
    rw [Timer.stepCycle_pending]
    by_cases hE : FallingEdge ta d <;>
      · first
          | rw [if_pos hE]
          | rw [if_neg hE]
        rw [Timer.stepCycle_reload]
        refine ⟨rfl, rfl, rfl, rfl, ?_⟩
        intro hedge
        simp only at hedge
        rw [if_neg hedge]

/-- C2 amended, witness at the concrete timer `c2t0`. -/
theorem c2_amended_witness :
    ((c2t0.stepCycle).1.tima = 0 ∧ (c2t0.stepCycle).1.tima_reload_cycle = false) ∧
    ((c2t1.stepCycle).2 = false ∧
      (c2t1.stepCycle).1.tima_reload_cycle = true ∧
      (c2t1.stepCycle).1.tima_overflow = false ∧
      ((c2t1.stepCycle).1.stepCycle).2 = true ∧
      ((c2t1.stepCycle).1.stepCycle).1.tima = c2t1.tma) :=
  ⟨c2_amended.1 c2t0 (by decide) (by decide),
   let h := c2_amended.2 c2t1 (by decide) (by decide) (by decide)
   ⟨h.1, h.2.1, h.2.2.1, h.2.2.2.1, h.2.2.2.2 (by decide)⟩⟩

/-- Characterization of a timer cycle started with neither overflow
pending nor reload in progress: no interrupt, no reload flag; TIMA is
incremented exactly on a falling edge, possibly starting a new overflow. -/
theorem Timer.stepCycle_quiet (d ti tm ta : Nat) :
    (Timer.mk d ti tm ta false false).stepCycle =
      ((if FallingEdge ta d then
          (if (ti + 1) % 256 = 0
            then Timer.mk ((d + 1) % 65536) ((ti + 1) % 256) tm ta true false
            else Timer.mk ((d + 1) % 65536) ((ti + 1) % 256) tm ta false false)
        else Timer.mk ((d + 1) % 65536) ti tm ta false false), false) := by
  have key : (Timer.mk d ti tm ta false false).stepCycle =
      ((if ta &&& 0x04 ≠ 0 then
          (if (d >>> tacBitPos ta) &&& 1 = 1 ∧
              (((d + 1) % 65536) >>> tacBitPos ta) &&& 1 = 0
            then
              (if (ti + 1) % 256 = 0
                then Timer.mk ((d + 1) % 65536) ((ti + 1) % 256) tm ta true false
                else Timer.mk ((d + 1) % 65536) ((ti + 1) % 256) tm ta false false)
            else Timer.mk ((d + 1) % 65536) ti tm ta false false)
        else Timer.mk ((d + 1) % 65536) ti tm ta false false), false) := rfl
  rw [key]
  by_cases hE : FallingEdge ta d
  · rw [if_pos hE.1, if_pos ⟨hE.2.1, hE.2.2⟩, if_pos hE]
  · rw [if_neg hE]
    by_cases h1 : ta &&& 0x04 ≠ 0
    · have hab : ¬((d >>> tacBitPos ta) &&& 1 = 1 ∧
          (((d + 1) % 65536) >>> tacBitPos ta) &&& 1 = 0) :=
        fun hab => hE ⟨h1, hab.1, hab.2⟩
      rw [if_pos h1, if_neg hab]
    · rw [if_neg h1]

/-- C10: writing TIMA while overflow is pending (overflow flag set, not
yet in the reload cycle) stores the value and cancels the pending
overflow, so the next cycles produce neither the reload-in-progress state
nor a timer interrupt (TIMA keeping the written value as long as no new
falling edge occurs); writing TIMA during the reload cycle itself leaves
the timer completely unchanged. -/
theorem c10_write_tima :
    (∀ (t : Timer) (v : Nat), t.tima_overflow = true → t.tima_reload_cycle = false →
      (t.write_tima v).tima = v ∧
      (t.write_tima v).tima_overflow = false ∧
      ((t.write_tima v).stepCycle).2 = false ∧
      ((t.write_tima v).stepCycle).1.tima_reload_cycle = false ∧
      (¬ FallingEdge t.tac t.div_counter →
        ((t.write_tima v).stepCycle).1.tima = v ∧
        ((t.write_tima v).stepCycle).1.tima_overflow = false ∧
        (((t.write_tima v).stepCycle).1.stepCycle).2 = false)) ∧
    (∀ (t : Timer) (v : Nat), t.tima_reload_cycle = true → t.write_tima v = t) := by
  constructor
  · intro t v hov hrc
    obtain ⟨d, ti, tm, ta, ov, rc⟩ := t
    simp only at hov hrc
    subst hov hrc
    have hw : (Timer.mk d ti tm ta true false).write_tima v =
        Timer.mk d v tm ta false false := rfl
    rw [hw, Timer.stepCycle_quiet]
    refine ⟨rfl, rfl, rfl, ?_, ?_⟩
    · by_cases hE : FallingEdge ta d
      · rw [if_pos hE]
        by_cases h4 : (v + 1) % 256 = 0
        · rw [if_pos h4]
        · rw [if_neg h4]
      · rw [if_neg hE]
    · intro hedge
      simp only at hedge
      rw [if_neg hedge, Timer.stepCycle_quiet]
      exact ⟨rfl, rfl, rfl⟩
  · intro t v hrc
    obtain ⟨d, ti, tm, ta, ov, rc⟩ := t
    simp only at hrc
    subst hrc
    rfl

/-- Concrete overflow-pending timer for the C10 witness. -/
def c10t0 : Timer := ⟨0x00, 0x00, 0x37, 0x05, true, false⟩

/-- Concrete reload-cycle timer for the C10 witness. -/
def c10t1 : Timer := ⟨0x00, 0x00, 0x37, 0x05, false, true⟩

/-- C10, witness at concrete timers. -/
theorem c10_write_tima_witness :
    ((c10t0.write_tima 0x99).tima = 0x99 ∧
      (c10t0.write_tima 0x99).tima_overflow = false ∧
      ((c10t0.write_tima 0x99).stepCycle).2 = false ∧
      ((c10t0.write_tima 0x99).stepCycle).1.tima_reload_cycle = false ∧
      ((c10t0.write_tima 0x99).stepCycle).1.tima = 0x99 ∧
      ((c10t0.write_tima 0x99).stepCycle).1.tima_overflow = false ∧
      (((c10t0.write_tima 0x99).stepCycle).1.stepCycle).2 = false) ∧
    c10t1.write_tima 0x11 = c10t1 := by
  refine ⟨?_, c10_write_tima.2 c10t1 0x11 (by decide)⟩
  have h := c10_write_tima.1 c10t0 0x99 (by decide) (by decide)
  have h5 := h.2.2.2.2 (by decide)
  exact ⟨h.1, h.2.1, h.2.2.1, h.2.2.2.1, h5.1, h5.2.1, h5.2.2⟩

/-! ## CPU ALU helpers (src/core/src/cpu/mod.rs)

Only the A and F registers take part in the embedded ALU helpers
`Cpu::add`, `Cpu::sub`, `Cpu::cp` and `Cpu::xor`; `Flags` is the packed
`u8` bit set Z = 0x80, N = 0x40, H = 0x20, C = 0x10 of the source.
`wrapping_add`/`wrapping_sub` on `u8` are rendered as `% 256` arithmetic
(for `wrapping_sub`, as `(a + 256 - value) % 256`, which agrees with the
source whenever `a` and `value` are byte values). -/

/-- CPU register slice touched by the embedded ALU helpers. -/
structure Cpu where
  a : Nat
  f : Nat
deriving Repr, DecidableEq

/-- `Flags::Z`. -/
def flagZ : Nat := 0x80

/-- `Flags::N`. -/
def flagN : Nat := 0x40

/-- `Flags::H`. -/
def flagH : Nat := 0x20

/-- `Flags::C`. -/
def flagC : Nat := 0x10

/-- `Cpu::add` (ADD A,v). -/
def Cpu.add (c : Cpu) (value : Nat) : Cpu :=
  let a := c.a
  let result := (a + value) % 256
  let f := 0
  let f := if result = 0 then f ||| flagZ else f
  let f := if (a &&& 0x0F) + (value &&& 0x0F) > 0x0F then f ||| flagH else f
  let f := if a + value > 0xFF then f ||| flagC else f
  { a := result, f := f }

/-- `Cpu::sub` (SUB v). -/
def Cpu.sub (c : Cpu) (value : Nat) : Cpu :=
  let a := c.a
  let result := (a + 256 - value) % 256
  let f := flagN
  let f := if result = 0 then f ||| flagZ else f
  let f := if (a &&& 0x0F) < (value &&& 0x0F) then f ||| flagH else f
  let f := if a < value then f ||| flagC else f
  { a := result, f := f }

/-- `Cpu::cp` (CP v): the flag computation of `Cpu::sub`, with A left
unchanged. -/
def Cpu.cp (c : Cpu) (value : Nat) : Cpu :=
  let a := c.a
  let result := (a + 256 - value) % 256
  let f := flagN
  let f := if result = 0 then f ||| flagZ else f
  let f := if (a &&& 0x0F) < (value &&& 0x0F) then f ||| flagH else f
  let f := if a < value then f ||| flagC else f
  { a := a, f := f }

/-- `Cpu::xor` (XOR v). -/
def Cpu.xor (c : Cpu) (value : Nat) : Cpu :=
  let result := c.a ^^^ value
  let f := 0
  let f := if result = 0 then f ||| flagZ else f
  { a := result, f := f }

/-- C8: ADD A,v followed by SUB v restores A for byte values; XOR A,A
yields A = 0 with exactly the Z flag set; CP v computes exactly the flags
of SUB v while leaving A unchanged. -/
theorem c8_alu_identities :
    (∀ a f v : Nat, a < 256 → v < 256 →
      (((Cpu.mk a f).add v).sub v).a = a) ∧
    (∀ a f : Nat, ((Cpu.mk a f).xor a).a = 0 ∧ ((Cpu.mk a f).xor a).f = flagZ) ∧
    (∀ a f v : Nat,
      ((Cpu.mk a f).cp v).f = ((Cpu.mk a f).sub v).f ∧ ((Cpu.mk a f).cp v).a = a) := by
  refine ⟨?_, ?_, ?_⟩
  · intro a f v ha hv
    show (((a + v) % 256) + 256 - v) % 256 = a
    omega
  · intro a f
    constructor
    · show a ^^^ a = 0
      exact Nat.xor_self a
    · show (if a ^^^ a = 0 then 0 ||| flagZ else 0) = flagZ
      rw [Nat.xor_self a, if_pos rfl]
      rfl
  · intro a f v
    exact ⟨rfl, rfl⟩

/-- C8, witness at A = 0x3A, F = 0, v = 0xC6. -/
theorem c8_alu_identities_witness :
    (((Cpu.mk 0x3A 0).add 0xC6).sub 0xC6).a = 0x3A ∧
    ((Cpu.mk 0x3A 0).xor 0x3A).a = 0 ∧ ((Cpu.mk 0x3A 0).xor 0x3A).f = flagZ ∧
    ((Cpu.mk 0x3A 0).cp 0xC6).f = ((Cpu.mk 0x3A 0).sub 0xC6).f ∧
    ((Cpu.mk 0x3A 0).cp 0xC6).a = 0x3A :=
  ⟨c8_alu_identities.1 0x3A 0 0xC6 (by decide) (by decide),
   (c8_alu_identities.2.1 0x3A 0).1, (c8_alu_identities.2.1 0x3A 0).2,
   (c8_alu_identities.2.2 0x3A 0 0xC6).1, (c8_alu_identities.2.2 0x3A 0 0xC6).2⟩

/-! ## APU noise channel (src/core/src/apu/mod.rs)

`Channel4` is the noise channel.  The LFSR update is the `Clock LFSR`
block of `Channel4::step`; `!0x40` on `u16` is the mask 0xFFBF. -/

/-- One LFSR clock of `Channel4::step`: new bit = bit0 XOR bit1, shift
right, insert the new bit at bit 14, and in width mode also at bit 6. -/
def lfsrClock (width : Bool) (l : Nat) : Nat :=
  let x := (l &&& 1) ^^^ ((l >>> 1) &&& 1)
  let l1 := (l >>> 1) ||| (x <<< 14)
  if width then (l1 &&& 0xFFBF) ||| (x <<< 6) else l1

/-- Fuelled iteration of a step function on `Nat`.  The recursion
evaluates the step result to a numeral before recursing, which keeps
kernel reduction of concrete iterations shallow. -/
def iterF (f : Nat → Nat) : Nat → Nat → Nat
  | 0, l => l
  | n+1, l =>
    match f l with
    | 0 => iterF f n 0
    | m+1 => iterF f n (m+1)

/-- The n-fold LFSR clock. -/
def lfsrIter (width : Bool) : Nat → Nat → Nat :=
  iterF (lfsrClock width)

/-- Bit-0 output sequence of the LFSR started from the trigger value
0x7FFF (`Channel4::trigger` sets `self.lfsr = 0x7FFF`). -/
def bitSeq (width : Bool) (n : Nat) : Nat :=
  (lfsrIter width n 0x7FFF) &&& 1

/-- Noise channel state: the fields of `struct Channel4`. -/
structure Channel4 where
  enabled : Bool
  dac_enabled : Bool
  length_counter : Nat
  length_enabled : Bool
  frequency_timer : Nat
  volume : Nat
  initial_volume : Nat
  envelope_timer : Nat
  envelope_direction : Bool
  envelope_period : Nat
  lfsr : Nat
  clock_shift : Nat
  width_mode : Bool
  divisor_code : Nat
deriving Repr, DecidableEq

/-- `Channel4::step`: decrement the frequency timer; on reaching zero
reload it to `divisor << clock_shift` (divisor 8 for code 0, else
code * 16) and clock the LFSR. -/
def Channel4.step (c : Channel4) : Channel4 :=
  let c1 :=
    if c.frequency_timer > 0 then
      { c with frequency_timer := c.frequency_timer - 1 }
    else c
  if c1.frequency_timer = 0 then
    let divisor :=
      match c1.divisor_code with
      | 0 => 8
      | n+1 => (n+1) * 16
    { c1 with
        frequency_timer := divisor <<< c1.clock_shift,
        lfsr := lfsrClock c1.width_mode c1.lfsr }
  else c1

/-- `Channel4::trigger`: enable (iff DAC), reload the length counter if
zero, reload frequency timer / envelope / volume, and reset the LFSR to
0x7FFF. -/
def Channel4.trigger (c : Channel4) : Channel4 :=
  let c1 := { c with enabled := c.dac_enabled }
  let c2 :=
    if c1.length_counter = 0 then { c1 with length_counter := 64 } else c1
  let divisor :=
    match c2.divisor_code with
    | 0 => 8
    | n+1 => (n+1) * 16
  { c2 with
      frequency_timer := divisor <<< c2.clock_shift,
      envelope_timer := c2.envelope_period,
      volume := c2.initial_volume,
      lfsr := 0x7FFF }

/-- Unfolding of one iteration step. -/
theorem iterF_succ (f : Nat → Nat) (n l : Nat) :
    iterF f (n + 1) l = iterF f n (f l) := by
  show (match f l with
        | 0 => iterF f n 0
        | m+1 => iterF f n (m+1)) = iterF f n (f l)
  cases h : f l with
  | zero => rfl
  | succ m => rfl

/-- Iteration splits over addition of fuel. -/
theorem iterF_add (f : Nat → Nat) (a b l : Nat) :
    iterF f (a + b) l = iterF f b (iterF f a l) := by
  induction a generalizing l with
  | zero => rw [Nat.zero_add]; rfl
  | succ a ih =>
    have h1 : a + 1 + b = (a + b) + 1 := by omega
    rw [h1, iterF_succ, iterF_succ, ih]

/-- A return time is preserved under multiples. -/
theorem iterF_ret_mul (f : Nat → Nat) (l b : Nat)
    (h : iterF f b l = l) : ∀ q, iterF f (b * q) l = l := by
  intro q
  induction q with
  | zero => rfl
  | succ q ih =>
    have h1 : b * (q + 1) = b * q + b := by ring
    rw [h1, iterF_add, ih, h]

/-- Iteration counts can be reduced modulo a return time. -/
theorem iterF_ret_mod (f : Nat → Nat) (l a b : Nat)
    (hb : iterF f b l = l) : iterF f a l = iterF f (a % b) l := by
  conv_lhs => rw [← Nat.div_add_mod a b]
  rw [iterF_add, iterF_ret_mul f l b hb (a / b)]

/-- Return times are closed under gcd. -/
theorem iterF_ret_gcd (f : Nat → Nat) (l : Nat) (a b : Nat)
    (ha : iterF f a l = l) (hb : iterF f b l = l) :
    iterF f (Nat.gcd a b) l = l := by
  induction a, b using Nat.gcd.induction with
  | H0 n => simpa using hb
  | H1 m n hm ih =>
    rw [Nat.gcd_rec]
    exact ih (by rw [iterF_ret_mod f l n m ha] at hb; exact hb) ha

/-- `iterF_succ` restated for the LFSR iterate. -/
theorem lfsrIter_succ (w : Bool) (n l : Nat) :
    lfsrIter w (n + 1) l = lfsrIter w n (lfsrClock w l) :=
  iterF_succ (lfsrClock w) n l

/-- `iterF_add` restated for the LFSR iterate. -/
theorem lfsrIter_add (w : Bool) (a b l : Nat) :
    lfsrIter w (a + b) l = lfsrIter w b (lfsrIter w a l) :=
  iterF_add (lfsrClock w) a b l

set_option maxRecDepth 20000 in
/-- LFSR run segment 0 (width off), 1024 clocks. -/
theorem lfsr15_chunk0 : lfsrIter false 1024 32767 = 10239 := by
  decide

set_option maxRecDepth 20000 in
/-- LFSR run segment 1 (width off), 1024 clocks. -/
theorem lfsr15_chunk1 : lfsrIter false 1024 10239 = 6271 := by
  decide

set_option maxRecDepth 20000 in
/-- LFSR run segment 2 (width off), 1024 clocks. -/
theorem lfsr15_chunk2 : lfsrIter false 1024 6271 = 2983 := by
  decide

set_option maxRecDepth 20000 in
/-- LFSR run segment 3 (width off), 1024 clocks. -/
theorem lfsr15_chunk3 : lfsrIter false 1024 2983 = 10112 := by
  decide

set_option maxRecDepth 20000 in
/-- LFSR run segment 4 (width off), 1024 clocks. -/
theorem lfsr15_chunk4 : lfsrIter false 1024 10112 = 6232 := by
  decide

set_option maxRecDepth 20000 in
/-- LFSR run segment 5 (width off), 1024 clocks. -/
theorem lfsr15_chunk5 : lfsrIter false 1024 6232 = 11199 := by
  decide

set_option maxRecDepth 20000 in
/-- LFSR run segment 6 (width off), 1024 clocks. -/
theorem lfsr15_chunk6 : lfsrIter false 1024 11199 = 7563 := by
  decide

set_option maxRecDepth 20000 in
/-- LFSR run segment 7 (width off), 1024 clocks. -/
theorem lfsr15_chunk7 : lfsrIter false 1024 7563 = 14463 := by
  decide

set_option maxRecDepth 20000 in
/-- LFSR run segment 8 (width off), 1024 clocks. -/
theorem lfsr15_chunk8 : lfsrIter false 1024 14463 = 4519 := by
  decide

set_option maxRecDepth 20000 in
/-- LFSR run segment 9 (width off), 1024 clocks. -/
theorem lfsr15_chunk9 : lfsrIter false 1024 4519 = 11680 := by
  decide

set_option maxRecDepth 20000 in
/-- LFSR run segment 10 (width off), 1024 clocks. -/
theorem lfsr15_chunk10 : lfsrIter false 1024 11680 = 8034 := by
  decide

set_option maxRecDepth 20000 in
/-- LFSR run segment 11 (width off), 1024 clocks. -/
theorem lfsr15_chunk11 : lfsrIter false 1024 8034 = 12703 := by
  decide

set_option maxRecDepth 20000 in
/-- LFSR run segment 12 (width off), 1024 clocks. -/
theorem lfsr15_chunk12 : lfsrIter false 1024 12703 = 6065 := by
  decide

set_option maxRecDepth 20000 in
/-- LFSR run segment 13 (width off), 1024 clocks. -/
theorem lfsr15_chunk13 : lfsrIter false 1024 6065 = 10063 := by
  decide

set_option maxRecDepth 20000 in
/-- LFSR run segment 14 (width off), 1024 clocks. -/
theorem lfsr15_chunk14 : lfsrIter false 1024 10063 = 22528 := by
  decide

set_option maxRecDepth 20000 in
/-- LFSR run segment 15 (width off), 1024 clocks. -/
theorem lfsr15_chunk15 : lfsrIter false 1024 22528 = 16256 := by
  decide

set_option maxRecDepth 20000 in
/-- LFSR run segment 16 (width off), 1024 clocks. -/
theorem lfsr15_chunk16 : lfsrIter false 1024 16256 = 5080 := by
  decide

set_option maxRecDepth 20000 in
/-- LFSR run segment 17 (width off), 1024 clocks. -/
theorem lfsr15_chunk17 : lfsrIter false 1024 5080 = 11303 := by
  decide

set_option maxRecDepth 20000 in
/-- LFSR run segment 18 (width off), 1024 clocks. -/
theorem lfsr15_chunk18 : lfsrIter false 1024 11303 = 16344 := by
  decide

set_option maxRecDepth 20000 in
/-- LFSR run segment 19 (width off), 1024 clocks. -/
theorem lfsr15_chunk19 : lfsrIter false 1024 16344 = 13287 := by
  decide

set_option maxRecDepth 20000 in
/-- LFSR run segment 20 (width off), 1024 clocks. -/
theorem lfsr15_chunk20 : lfsrIter false 1024 13287 = 13876 := by
  decide

set_option maxRecDepth 20000 in
/-- LFSR run segment 21 (width off), 1024 clocks. -/
theorem lfsr15_chunk21 : lfsrIter false 1024 13876 = 9716 := by
  decide

set_option maxRecDepth 20000 in
/-- LFSR run segment 22 (width off), 1024 clocks. -/
theorem lfsr15_chunk22 : lfsrIter false 1024 9716 = 10712 := by
  decide

set_option maxRecDepth 20000 in
/-- LFSR run segment 23 (width off), 1024 clocks. -/
theorem lfsr15_chunk23 : lfsrIter false 1024 10712 = 15367 := by
  decide

set_option maxRecDepth 20000 in
/-- LFSR run segment 24 (width off), 1024 clocks. -/
theorem lfsr15_chunk24 : lfsrIter false 1024 15367 = 12994 := by
  decide

set_option maxRecDepth 20000 in
/-- LFSR run segment 25 (width off), 1024 clocks. -/
theorem lfsr15_chunk25 : lfsrIter false 1024 12994 = 12029 := by
  decide

set_option maxRecDepth 20000 in
/-- LFSR run segment 26 (width off), 1024 clocks. -/
theorem lfsr15_chunk26 : lfsrIter false 1024 12029 = 9774 := by
  decide

set_option maxRecDepth 20000 in
/-- LFSR run segment 27 (width off), 1024 clocks. -/
theorem lfsr15_chunk27 : lfsrIter false 1024 9774 = 12542 := by
  decide

set_option maxRecDepth 20000 in
/-- LFSR run segment 28 (width off), 1024 clocks. -/
theorem lfsr15_chunk28 : lfsrIter false 1024 12542 = 32591 := by
  decide

set_option maxRecDepth 20000 in
/-- LFSR run segment 29 (width off), 1024 clocks. -/
theorem lfsr15_chunk29 : lfsrIter false 1024 32591 = 26496 := by
  decide

set_option maxRecDepth 20000 in
/-- LFSR run segment 30 (width off), 1024 clocks. -/
theorem lfsr15_chunk30 : lfsrIter false 1024 26496 = 11352 := by
  decide

set_option maxRecDepth 20000 in
/-- Final LFSR run segment (width off), 1023 clocks back to the seed. -/
theorem lfsr15_tail : lfsrIter false 1023 11352 = 32767 := by
  decide

/-- The 15-bit LFSR state returns to 0x7FFF after 32767 clocks. -/
theorem lfsr15_return : lfsrIter false 32767 0x7FFF = 0x7FFF := by
  rw [show (32767 : Nat) = 1024 + 31743 from rfl, lfsrIter_add, lfsr15_chunk0]
  rw [show (31743 : Nat) = 1024 + 30719 from rfl, lfsrIter_add, lfsr15_chunk1]
  rw [show (30719 : Nat) = 1024 + 29695 from rfl, lfsrIter_add, lfsr15_chunk2]
  rw [show (29695 : Nat) = 1024 + 28671 from rfl, lfsrIter_add, lfsr15_chunk3]
  rw [show (28671 : Nat) = 1024 + 27647 from rfl, lfsrIter_add, lfsr15_chunk4]
  rw [show (27647 : Nat) = 1024 + 26623 from rfl, lfsrIter_add, lfsr15_chunk5]
  rw [show (26623 : Nat) = 1024 + 25599 from rfl, lfsrIter_add, lfsr15_chunk6]
  rw [show (25599 : Nat) = 1024 + 24575 from rfl, lfsrIter_add, lfsr15_chunk7]
  rw [show (24575 : Nat) = 1024 + 23551 from rfl, lfsrIter_add, lfsr15_chunk8]
  rw [show (23551 : Nat) = 1024 + 22527 from rfl, lfsrIter_add, lfsr15_chunk9]
  rw [show (22527 : Nat) = 1024 + 21503 from rfl, lfsrIter_add, lfsr15_chunk10]
  rw [show (21503 : Nat) = 1024 + 20479 from rfl, lfsrIter_add, lfsr15_chunk11]
  rw [show (20479 : Nat) = 1024 + 19455 from rfl, lfsrIter_add, lfsr15_chunk12]
  rw [show (19455 : Nat) = 1024 + 18431 from rfl, lfsrIter_add, lfsr15_chunk13]
  rw [show (18431 : Nat) = 1024 + 17407 from rfl, lfsrIter_add, lfsr15_chunk14]
  rw [show (17407 : Nat) = 1024 + 16383 from rfl, lfsrIter_add, lfsr15_chunk15]
  rw [show (16383 : Nat) = 1024 + 15359 from rfl, lfsrIter_add, lfsr15_chunk16]
  rw [show (15359 : Nat) = 1024 + 14335 from rfl, lfsrIter_add, lfsr15_chunk17]
  rw [show (14335 : Nat) = 1024 + 13311 from rfl, lfsrIter_add, lfsr15_chunk18]
  rw [show (13311 : Nat) = 1024 + 12287 from rfl, lfsrIter_add, lfsr15_chunk19]
  rw [show (12287 : Nat) = 1024 + 11263 from rfl, lfsrIter_add, lfsr15_chunk20]
  rw [show (11263 : Nat) = 1024 + 10239 from rfl, lfsrIter_add, lfsr15_chunk21]
  rw [show (10239 : Nat) = 1024 + 9215 from rfl, lfsrIter_add, lfsr15_chunk22]
  rw [show (9215 : Nat) = 1024 + 8191 from rfl, lfsrIter_add, lfsr15_chunk23]
  rw [show (8191 : Nat) = 1024 + 7167 from rfl, lfsrIter_add, lfsr15_chunk24]
  rw [show (7167 : Nat) = 1024 + 6143 from rfl, lfsrIter_add, lfsr15_chunk25]
  rw [show (6143 : Nat) = 1024 + 5119 from rfl, lfsrIter_add, lfsr15_chunk26]
  rw [show (5119 : Nat) = 1024 + 4095 from rfl, lfsrIter_add, lfsr15_chunk27]
  rw [show (4095 : Nat) = 1024 + 3071 from rfl, lfsrIter_add, lfsr15_chunk28]
  rw [show (3071 : Nat) = 1024 + 2047 from rfl, lfsrIter_add, lfsr15_chunk29]
  rw [show (2047 : Nat) = 1024 + 1023 from rfl, lfsrIter_add, lfsr15_chunk30]
  exact lfsr15_tail

set_option maxRecDepth 20000 in
/-- The 15-bit LFSR does not return to the seed after 7, 31, 151, 217,
1057 or 4681 clocks (the proper divisors of 32767 other than 1, together
with 1 handled by the 7-clock computation path). -/
theorem lfsr15_no_return_small :
    lfsrIter false 1 0x7FFF ≠ 0x7FFF ∧
    lfsrIter false 7 0x7FFF ≠ 0x7FFF ∧
    lfsrIter false 31 0x7FFF ≠ 0x7FFF ∧
    lfsrIter false 151 0x7FFF ≠ 0x7FFF ∧
    lfsrIter false 217 0x7FFF ≠ 0x7FFF := by
  refine ⟨?_, ?_, ?_, ?_, ?_⟩ <;> decide

set_option maxRecDepth 20000 in
/-- The 15-bit LFSR does not return to the seed after 1057 clocks. -/
theorem lfsr15_no_return_1057 : lfsrIter false 1057 0x7FFF ≠ 0x7FFF := by
  rw [show (1057 : Nat) = 1024 + 33 from rfl, lfsrIter_add, lfsr15_chunk0]
  decide

set_option maxRecDepth 20000 in
/-- The 15-bit LFSR does not return to the seed after 4681 clocks. -/
theorem lfsr15_no_return_4681 : lfsrIter false 4681 0x7FFF ≠ 0x7FFF := by
  rw [show (4681 : Nat) = 1024 + 3657 from rfl, lfsrIter_add, lfsr15_chunk0]
  rw [show (3657 : Nat) = 1024 + 2633 from rfl, lfsrIter_add, lfsr15_chunk1]
  rw [show (2633 : Nat) = 1024 + 1609 from rfl, lfsrIter_add, lfsr15_chunk2]
  rw [show (1609 : Nat) = 1024 + 585 from rfl, lfsrIter_add, lfsr15_chunk3]
  decide

/-- Action of a width-mode LFSR clock on the low 7 bits of the state.
In width mode the feedback bit is written into bit 6, so bits 0..6 evolve
autonomously; this is the induced 7-bit system. -/
def gClock (m : Nat) : Nat :=
  (lfsrClock true m) &&& 127

set_option maxRecDepth 20000 in
/-- The induced 7-bit system returns to its seed 127 = 0x7FFF &&& 127
after 127 clocks. -/
theorem g7_return : iterF gClock 127 127 = 127 := by
  decide

/-- The induced 7-bit system is not at its seed after one clock. -/
theorem g7_no_return_1 : iterF gClock 1 127 ≠ 127 := by
  decide

/-- Feedback bit of the LFSR as a `testBit` computation. -/
theorem feedback_testBit (a : Nat) :
    ((a &&& 1) ^^^ ((a >>> 1) &&& 1)).testBit 0 = (a.testBit 0 ^^ a.testBit 1) := by
  rw [Nat.testBit_xor, Nat.testBit_and, Nat.testBit_and, Nat.testBit_shiftRight]
  norm_num

/-- Bits 0..13 of a width-off LFSR clock are the old bits 1..14. -/
theorem testBit_lfsrClock_false (l k : Nat) (hk : k ≤ 13) :
    (lfsrClock false l).testBit k = l.testBit (k + 1) := by
  have he : lfsrClock false l =
      (l >>> 1) ||| (((l &&& 1) ^^^ ((l >>> 1) &&& 1)) <<< 14) := rfl
  rw [he, Nat.testBit_or, Nat.testBit_shiftLeft, Nat.testBit_shiftRight]
  have h14 : decide (k ≥ 14) = false := by
    simp only [decide_eq_false_iff_not]
    omega
  rw [h14]
  simp [Nat.add_comm 1 k]

/-- Bits 0..5 of a width-on LFSR clock are the old bits 1..6. -/
theorem testBit_lfsrClock_true (l k : Nat) (hk : k ≤ 5) :
    (lfsrClock true l).testBit k = l.testBit (k + 1) := by
  have he : lfsrClock true l =
      ((((l >>> 1) ||| (((l &&& 1) ^^^ ((l >>> 1) &&& 1)) <<< 14)) &&& 0xFFBF) |||
        (((l &&& 1) ^^^ ((l >>> 1) &&& 1)) <<< 6)) := rfl
  rw [he, Nat.testBit_or, Nat.testBit_and, Nat.testBit_or,
    Nat.testBit_shiftLeft, Nat.testBit_shiftLeft, Nat.testBit_shiftRight]
  have h14 : decide (k ≥ 14) = false := by
    simp only [decide_eq_false_iff_not]
    omega
  have h6 : decide (k ≥ 6) = false := by
    simp only [decide_eq_false_iff_not]
    omega
  have hm : Nat.testBit 0xFFBF k = true := by
    interval_cases k <;> decide
  rw [h14, h6, hm]
  simp [Nat.add_comm 1 k]

/-- Bit 6 of a width-on LFSR clock is the feedback bit. -/
theorem testBit_lfsrClock_true6 (l : Nat) :
    (lfsrClock true l).testBit 6 = (l.testBit 0 ^^ l.testBit 1) := by
  have he : lfsrClock true l =
      ((((l >>> 1) ||| (((l &&& 1) ^^^ ((l >>> 1) &&& 1)) <<< 14)) &&& 0xFFBF) |||
        (((l &&& 1) ^^^ ((l >>> 1) &&& 1)) <<< 6)) := rfl
  rw [he, Nat.testBit_or, Nat.testBit_and, Nat.testBit_shiftLeft]
  have hm : Nat.testBit 0xFFBF 6 = false := by decide
  rw [hm, feedback_testBit]
  simp

/-- The induced 7-bit state is always below 128. -/
theorem gClock_lt (m : Nat) : gClock m < 128 :=
  Nat.lt_succ_of_le Nat.and_le_right

/-- Bits 0..5 of the induced 7-bit clock are the old bits 1..6. -/
theorem testBit_gClock (m k : Nat) (hk : k ≤ 5) :
    (gClock m).testBit k = m.testBit (k + 1) := by
  have h127 : Nat.testBit 127 k = true := by
    interval_cases k <;> decide
  rw [gClock, Nat.testBit_and, h127, testBit_lfsrClock_true m k hk]
  simp

/-- The induced 7-bit clock only depends on the low 7 bits of the state. -/
theorem gClock_proj (l : Nat) : gClock (l &&& 127) = gClock l := by
  apply Nat.eq_of_testBit_eq
  intro i
  by_cases hi6 : i ≤ 5
  · rw [testBit_gClock _ i hi6, testBit_gClock _ i hi6, Nat.testBit_and]
    have h127 : Nat.testBit 127 (i + 1) = true := by
      interval_cases i <;> decide
    rw [h127]
    simp
  · by_cases hi : i = 6
    · subst hi
      rw [gClock, gClock, Nat.testBit_and, Nat.testBit_and]
      have h127 : Nat.testBit 127 6 = true := by decide
      rw [h127, testBit_lfsrClock_true6, testBit_lfsrClock_true6,
        Nat.testBit_and, Nat.testBit_and]
      have h0 : Nat.testBit 127 0 = true := by decide
      have h1 : Nat.testBit 127 1 = true := by decide
      rw [h0, h1]
      simp
    · have hge : 7 ≤ i := by omega
      have hpow : (128 : Nat) ≤ 2 ^ i := by
        calc (128 : Nat) = 2 ^ 7 := by norm_num
        _ ≤ 2 ^ i := Nat.pow_le_pow_right (by norm_num) hge
      rw [Nat.testBit_lt_two_pow (lt_of_lt_of_le (gClock_lt _) hpow),
        Nat.testBit_lt_two_pow (lt_of_lt_of_le (gClock_lt _) hpow)]

/-- The low 7 bits of the width-on LFSR iterate follow the induced
7-bit system. -/
theorem proj_lfsrIter_true (n : Nat) : ∀ l : Nat,
    (lfsrIter true n l) &&& 127 = iterF gClock n (l &&& 127) := by
  induction n with
  | zero => intro l; rfl
  | succ n ih =>
    intro l
    rw [lfsrIter_succ, ih (lfsrClock true l), iterF_succ]
    have : (lfsrClock true l) &&& 127 = gClock l := rfl
    rw [this, gClock_proj]

/-- Bit 0 after k width-off clocks (k ≤ 14) is bit k of the start state. -/
theorem testBit_lfsrIter_false_zero : ∀ k, k ≤ 14 → ∀ l : Nat,
    (lfsrIter false k l).testBit 0 = l.testBit k := by
  intro k
  induction k with
  | zero => intro _ l; rfl
  | succ k ih =>
    intro hk l
    rw [lfsrIter_succ, ih (by omega) (lfsrClock false l),
      testBit_lfsrClock_false l k (by omega)]

/-- Bit 0 after k induced-7-bit clocks (k ≤ 6) is bit k of the start
state. -/
theorem testBit_gIter_zero : ∀ k, k ≤ 6 → ∀ m : Nat,
    (iterF gClock k m).testBit 0 = m.testBit k := by
  intro k
  induction k with
  | zero => intro _ m; rfl
  | succ k ih =>
    intro hk m
    rw [iterF_succ, ih (by omega) (gClock m), testBit_gClock m k (by omega)]

/-- A width-off LFSR clock keeps the state below 2^15. -/
theorem lfsrClock_false_lt (l : Nat) (h : l < 32768) :
    lfsrClock false l < 32768 := by
  have he : lfsrClock false l =
      (l >>> 1) ||| (((l &&& 1) ^^^ ((l >>> 1) &&& 1)) <<< 14) := rfl
  rw [he]
  have h1 : l >>> 1 < 2 ^ 15 := by
    rw [Nat.shiftRight_eq_div_pow]
    omega
  have hx : ((l &&& 1) ^^^ ((l >>> 1) &&& 1)) < 2 := by
    have ha : l &&& 1 < 2 := Nat.lt_succ_of_le Nat.and_le_right
    have hb : (l >>> 1) &&& 1 < 2 := Nat.lt_succ_of_le Nat.and_le_right
    have := Nat.xor_lt_two_pow (n := 1) (by simpa using ha) (by simpa using hb)
    simpa using this
  have h2 : (((l &&& 1) ^^^ ((l >>> 1) &&& 1)) <<< 14) < 2 ^ 15 := by
    rw [Nat.shiftLeft_eq]
    have : ((l &&& 1) ^^^ ((l >>> 1) &&& 1)) * 2 ^ 14 < 2 * 2 ^ 14 := by
      have h14 : (0 : Nat) < 2 ^ 14 := by norm_num
      exact (Nat.mul_lt_mul_right h14).mpr hx
    omega
  have := Nat.or_lt_two_pow (n := 15) h1 h2
  simpa using this

/-- Width-off LFSR iterates stay below 2^15. -/
theorem lfsrIter_false_lt : ∀ n, ∀ l : Nat, l < 32768 →
    lfsrIter false n l < 32768 := by
  intro n
  induction n with
  | zero => intro l h; exact h
  | succ n ih =>
    intro l h
    rw [lfsrIter_succ]
    exact ih _ (lfsrClock_false_lt l h)

/-- Induced-7-bit iterates stay below 128. -/
theorem gIter_lt : ∀ n, ∀ m : Nat, m < 128 → iterF gClock n m < 128 := by
  intro n
  induction n with
  | zero => intro m h; exact h
  | succ n ih =>
    intro m _
    rw [iterF_succ]
    exact ih _ (gClock_lt m)

/-- Two numbers below 2^n with the same first n bits are equal. -/
theorem eq_of_testBit_lt_pow (n a b : Nat) (ha : a < 2 ^ n) (hb : b < 2 ^ n)
    (h : ∀ k, k < n → a.testBit k = b.testBit k) : a = b := by
  apply Nat.eq_of_testBit_eq
  intro i
  by_cases hi : i < n
  · exact h i hi
  · have hpow : (2 : Nat) ^ n ≤ 2 ^ i :=
      Nat.pow_le_pow_right (by norm_num) (by omega)
    rw [Nat.testBit_lt_two_pow (lt_of_lt_of_le ha hpow),
      Nat.testBit_lt_two_pow (lt_of_lt_of_le hb hpow)]

/-- Two numbers with the same parity have the same bit 0. -/
theorem testBit_zero_of_and_one (a b : Nat) (h : a &&& 1 = b &&& 1) :
    a.testBit 0 = b.testBit 0 := by
  rw [Nat.and_one_is_mod, Nat.and_one_is_mod] at h
  rw [Nat.testBit_zero, Nat.testBit_zero, h]

/-- The width-mode bit sequence equals the bit sequence of the induced
7-bit system started at 127. -/
theorem bitSeq_true_g (n : Nat) :
    bitSeq true n = (iterF gClock n 127) &&& 1 := by
  have h1271 : (127 : Nat) &&& 1 = 1 := rfl
  have hand : ∀ a : Nat, (a &&& 127) &&& 1 = a &&& 1 := by
    intro a
    rw [Nat.and_assoc, h1271]
  have hseed : (32767 : Nat) &&& 127 = 127 := rfl
  unfold bitSeq
  rw [← hand (lfsrIter true n 0x7FFF), proj_lfsrIter_true n 0x7FFF, hseed]

/-- 32767 is a period of the width-off bit sequence. -/
theorem lfsr15_period (n : Nat) :
    bitSeq false (n + 32767) = bitSeq false n := by
  unfold bitSeq
  rw [Nat.add_comm n 32767, lfsrIter_add, lfsr15_return]

/-- 127 is a period of the width-on bit sequence. -/
theorem lfsr7_period (n : Nat) :
    bitSeq true (n + 127) = bitSeq true n := by
  rw [bitSeq_true_g, bitSeq_true_g, Nat.add_comm n 127, iterF_add, g7_return]

/-- No period of the width-off bit sequence is smaller than 32767. -/
theorem lfsr15_min_period (p : Nat) (hp : 0 < p)
    (hper : ∀ n, bitSeq false (n + p) = bitSeq false n) : 32767 ≤ p := by
  by_contra hcon
  push_neg at hcon
  have hret : lfsrIter false p 0x7FFF = 0x7FFF := by
    apply eq_of_testBit_lt_pow 15
    · exact lfsrIter_false_lt p 0x7FFF (by norm_num)
    · norm_num
    · intro k hk
      have hk14 : k ≤ 14 := by omega
      rw [← testBit_lfsrIter_false_zero k hk14 (lfsrIter false p 0x7FFF),
        ← lfsrIter_add false p k 0x7FFF]
      have hbit : (lfsrIter false (p + k) 0x7FFF) &&& 1 =
          (lfsrIter false k 0x7FFF) &&& 1 := by
        have h := hper k
        unfold bitSeq at h
        rw [Nat.add_comm k p] at h
        exact h
      rw [testBit_zero_of_and_one _ _ hbit,
        testBit_lfsrIter_false_zero k hk14 0x7FFF]
  have hgret : lfsrIter false (Nat.gcd p 32767) 0x7FFF = 0x7FFF :=
    iterF_ret_gcd _ _ p 32767 hret lfsr15_return
  have hgdvd : Nat.gcd p 32767 ∣ 32767 := Nat.gcd_dvd_right p 32767
  have hgle : Nat.gcd p 32767 ≤ p :=
    Nat.le_of_dvd hp (Nat.gcd_dvd_left p 32767)
  have hglt : Nat.gcd p 32767 < 32767 := lt_of_le_of_lt hgle hcon
  have hmul : ∀ M : Nat, Nat.gcd p 32767 ∣ M →
      lfsrIter false M 0x7FFF = 0x7FFF := by
    intro M hM
    obtain ⟨q, hq⟩ := hM
    rw [hq]
    exact iterF_ret_mul _ _ (Nat.gcd p 32767) hgret q
  by_cases h7 : 7 ∣ Nat.gcd p 32767
  · by_cases h31 : 31 ∣ Nat.gcd p 32767
    · by_cases h151 : 151 ∣ Nat.gcd p 32767
      · have hc1 : Nat.Coprime 7 31 := by decide
        have h217 : (7 * 31) ∣ Nat.gcd p 32767 :=
          hc1.mul_dvd_of_dvd_of_dvd h7 h31
        have hc2 : Nat.Coprime (7 * 31) 151 := by decide
        have hall : ((7 * 31) * 151) ∣ Nat.gcd p 32767 :=
          hc2.mul_dvd_of_dvd_of_dvd h217 h151
        have h327 : (32767 : Nat) ∣ Nat.gcd p 32767 := by
          have he : (7 * 31) * 151 = 32767 := by norm_num
          rwa [he] at hall
        have := Nat.dvd_antisymm hgdvd h327
        omega
      · have hcop : Nat.Coprime 151 (Nat.gcd p 32767) :=
          (Nat.Prime.coprime_iff_not_dvd (by norm_num)).mpr h151
        have hd : Nat.gcd p 32767 ∣ 217 * 151 := by
          have he : (217 : Nat) * 151 = 32767 := by norm_num
          rwa [he]
        have hg217 : Nat.gcd p 32767 ∣ 217 :=
          Nat.Coprime.dvd_of_dvd_mul_right hcop.symm hd
        exact lfsr15_no_return_small.2.2.2.2 (hmul 217 hg217)
    · have hcop : Nat.Coprime 31 (Nat.gcd p 32767) :=
        (Nat.Prime.coprime_iff_not_dvd (by norm_num)).mpr h31
      have hd : Nat.gcd p 32767 ∣ 1057 * 31 := by
        have he : (1057 : Nat) * 31 = 32767 := by norm_num
        rwa [he]
      have hg1057 : Nat.gcd p 32767 ∣ 1057 :=
        Nat.Coprime.dvd_of_dvd_mul_right hcop.symm hd
      exact lfsr15_no_return_1057 (hmul 1057 hg1057)
  · have hcop : Nat.Coprime 7 (Nat.gcd p 32767) :=
      (Nat.Prime.coprime_iff_not_dvd (by norm_num)).mpr h7
    have hd : Nat.gcd p 32767 ∣ 4681 * 7 := by
      have he : (4681 : Nat) * 7 = 32767 := by norm_num
      rwa [he]
    have hg4681 : Nat.gcd p 32767 ∣ 4681 :=
      Nat.Coprime.dvd_of_dvd_mul_right hcop.symm hd
    exact lfsr15_no_return_4681 (hmul 4681 hg4681)

/-- No period of the width-on bit sequence is smaller than 127. -/
theorem lfsr7_min_period (p : Nat) (hp : 0 < p)
    (hper : ∀ n, bitSeq true (n + p) = bitSeq true n) : 127 ≤ p := by
  by_contra hcon
  push_neg at hcon
  have hret : iterF gClock p 127 = 127 := by
    apply eq_of_testBit_lt_pow 7
    · exact gIter_lt p 127 (by norm_num)
    · norm_num
    · intro k hk
      have hk6 : k ≤ 6 := by omega
      rw [← testBit_gIter_zero k hk6 (iterF gClock p 127),
        ← iterF_add gClock p k 127]
      have hbit : (iterF gClock (p + k) 127) &&& 1 =
          (iterF gClock k 127) &&& 1 := by
        have h := hper k
        rw [bitSeq_true_g, bitSeq_true_g, Nat.add_comm k p] at h
        exact h
      rw [testBit_zero_of_and_one _ _ hbit, testBit_gIter_zero k hk6 127]
  have hgret : iterF gClock (Nat.gcd p 127) 127 = 127 :=
    iterF_ret_gcd _ _ p 127 hret g7_return
  have hgdvd : Nat.gcd p 127 ∣ 127 := Nat.gcd_dvd_right p 127
  have h1or : Nat.gcd p 127 = 1 ∨ Nat.gcd p 127 = 127 :=
    (Nat.Prime.eq_one_or_self_of_dvd (by norm_num) _ hgdvd)
  have hgle : Nat.gcd p 127 ≤ p := Nat.le_of_dvd hp (Nat.gcd_dvd_left p 127)
  rcases h1or with h1 | h127
  · rw [h1] at hgret
    exact g7_no_return_1 hgret
  · omega

/-- C9: starting from LFSR = 0x7FFF (the value `Channel4::trigger`
installs), the noise-channel LFSR update produces a bit-0 sequence whose
minimal period is exactly 32767 when width mode is off, and exactly 127
when width mode is on; moreover with clock_shift = 0 and divisor_code = 0
the frequency timer makes `Channel4::step` apply exactly one LFSR clock
every 8 steps. -/
theorem c9_lfsr_periods :
    (∀ c : Channel4, (c.trigger).lfsr = 0x7FFF) ∧
    (∀ c : Channel4, c.clock_shift = 0 → c.divisor_code = 0 →
      c.frequency_timer = 8 →
      Channel4.step^[8] c =
        { c with frequency_timer := 8,
                 lfsr := lfsrClock c.width_mode c.lfsr }) ∧
    (∀ n, bitSeq false (n + 32767) = bitSeq false n) ∧
    (∀ p, 0 < p → (∀ n, bitSeq false (n + p) = bitSeq false n) →
      32767 ≤ p) ∧
    (∀ n, bitSeq true (n + 127) = bitSeq true n) ∧
    (∀ p, 0 < p → (∀ n, bitSeq true (n + p) = bitSeq true n) → 127 ≤ p) := by
  refine ⟨?_, ?_, lfsr15_period, lfsr15_min_period, lfsr7_period,
    lfsr7_min_period⟩
  · intro c
    rfl
  · intro c hs hd hf
    obtain ⟨e, de, lc, le, ft, v, iv, et, ed, ep, lf, cs, wm, dc⟩ := c
    simp only at hs hd hf
    subst hs hd hf
    have sd : ∀ k : Nat,
        Channel4.step (Channel4.mk e de lc le (k + 2) v iv et ed ep lf 0 wm 0) =
          Channel4.mk e de lc le (k + 1) v iv et ed ep lf 0 wm 0 :=
      fun _ => rfl
    have sc : Channel4.step (Channel4.mk e de lc le 1 v iv et ed ep lf 0 wm 0) =
        Channel4.mk e de lc le 8 v iv et ed ep (lfsrClock wm lf) 0 wm 0 := rfl
    show Channel4.step^[7+1]
      (Channel4.mk e de lc le 8 v iv et ed ep lf 0 wm 0) = _
    rw [Function.iterate_succ_apply, show Channel4.step
      (Channel4.mk e de lc le 8 v iv et ed ep lf 0 wm 0) =
        Channel4.mk e de lc le 7 v iv et ed ep lf 0 wm 0 from sd 6]
    show Channel4.step^[6+1]
      (Channel4.mk e de lc le 7 v iv et ed ep lf 0 wm 0) = _
    rw [Function.iterate_succ_apply, show Channel4.step
      (Channel4.mk e de lc le 7 v iv et ed ep lf 0 wm 0) =
        Channel4.mk e de lc le 6 v iv et ed ep lf 0 wm 0 from sd 5]
    show Channel4.step^[5+1]
      (Channel4.mk e de lc le 6 v iv et ed ep lf 0 wm 0) = _
    rw [Function.iterate_succ_apply, show Channel4.step
      (Channel4.mk e de lc le 6 v iv et ed ep lf 0 wm 0) =
        Channel4.mk e de lc le 5 v iv et ed ep lf 0 wm 0 from sd 4]
    show Channel4.step^[4+1]
      (Channel4.mk e de lc le 5 v iv et ed ep lf 0 wm 0) = _
    rw [Function.iterate_succ_apply, show Channel4.step
      (Channel4.mk e de lc le 5 v iv et ed ep lf 0 wm 0) =
        Channel4.mk e de lc le 4 v iv et ed ep lf 0 wm 0 from sd 3]
    show Channel4.step^[3+1]
      (Channel4.mk e de lc le 4 v iv et ed ep lf 0 wm 0) = _
    rw [Function.iterate_succ_apply, show Channel4.step
      (Channel4.mk e de lc le 4 v iv et ed ep lf 0 wm 0) =
        Channel4.mk e de lc le 3 v iv et ed ep lf 0 wm 0 from sd 2]
    show Channel4.step^[2+1]
      (Channel4.mk e de lc le 3 v iv et ed ep lf 0 wm 0) = _
    rw [Function.iterate_succ_apply, show Channel4.step
      (Channel4.mk e de lc le 3 v iv et ed ep lf 0 wm 0) =
        Channel4.mk e de lc le 2 v iv et ed ep lf 0 wm 0 from sd 1]
    show Channel4.step^[1+1]
      (Channel4.mk e de lc le 2 v iv et ed ep lf 0 wm 0) = _
    rw [Function.iterate_succ_apply, show Channel4.step
      (Channel4.mk e de lc le 2 v iv et ed ep lf 0 wm 0) =
        Channel4.mk e de lc le 1 v iv et ed ep lf 0 wm 0 from sd 0]
    show Channel4.step^[0+1]
      (Channel4.mk e de lc le 1 v iv et ed ep lf 0 wm 0) = _
    rw [Function.iterate_succ_apply, sc, Function.iterate_zero_apply]

/-- Concrete triggered noise channel for the C9 witness. -/
def c9ch : Channel4 :=
  ⟨false, true, 0, false, 8, 0, 0, 0, false, 0, 0x7FFF, 0, false, 0⟩

/-- C9, witness at the concrete channel `c9ch` and concrete periods. -/
theorem c9_lfsr_periods_witness :
    (c9ch.trigger).lfsr = 0x7FFF ∧
    Channel4.step^[8] c9ch =
      { c9ch with frequency_timer := 8,
                  lfsr := lfsrClock c9ch.width_mode c9ch.lfsr } ∧
    bitSeq false (0 + 32767) = bitSeq false 0 ∧
    32767 ≤ 32767 ∧
    bitSeq true (0 + 127) = bitSeq true 0 ∧
    127 ≤ 127 :=
  ⟨c9_lfsr_periods.1 c9ch,
   c9_lfsr_periods.2.1 c9ch rfl rfl rfl,
   c9_lfsr_periods.2.2.1 0,
   c9_lfsr_periods.2.2.2.1 32767 (by norm_num) c9_lfsr_periods.2.2.1,
   c9_lfsr_periods.2.2.2.2.1 0,
   c9_lfsr_periods.2.2.2.2.2 127 (by norm_num) c9_lfsr_periods.2.2.2.2.1⟩

/-! ## Cartridge (src/core/src/cartridge/mod.rs)

The ROM `Vec<u8>` is modelled as a length together with an index
function; `rom.get(i).copied().unwrap_or(0xFF)` becomes `rom_get`.
External RAM is a `List Nat`; `Vec` reads with `.unwrap_or(0xFF)` become
`List.getD` and in-bounds `get_mut` writes become `List.set` (which is
also a no-op out of bounds). -/

/-- MBC controller kinds. -/
inductive MbcType where
  | None
  | Mbc1
  | Mbc2
  | Mbc3
  | Mbc5
deriving Repr, DecidableEq

/-- MBC3 real-time clock (`struct Rtc`). -/
structure Rtc where
  seconds : Nat
  minutes : Nat
  hours : Nat
  days_low : Nat
  days_high : Nat
  latched : List Nat
  latch_ready : Bool
  sub_seconds : Nat
deriving Repr, DecidableEq

/-- `Rtc::read`: read a latched register. -/
def Rtc.read (r : Rtc) (reg : Nat) : Nat :=
  match reg with
  | 0x08 => r.latched.getD 0 0xFF
  | 0x09 => r.latched.getD 1 0xFF
  | 0x0A => r.latched.getD 2 0xFF
  | 0x0B => r.latched.getD 3 0xFF
  | 0x0C => r.latched.getD 4 0xFF
  | _ => 0xFF

/-- `Rtc::write`: write a live register. -/
def Rtc.write (r : Rtc) (reg value : Nat) : Rtc :=
  match reg with
  | 0x08 => { r with seconds := value &&& 0x3F }
  | 0x09 => { r with minutes := value &&& 0x3F }
  | 0x0A => { r with hours := value &&& 0x1F }
  | 0x0B => { r with days_low := value }
  | 0x0C => { r with days_high := value &&& 0xC1 }
  | _ => r

/-- `Rtc::latch`: copy the live registers into the latched shadow. -/
def Rtc.latch (r : Rtc) : Rtc :=
  { r with latched := [r.seconds, r.minutes, r.hours, r.days_low, r.days_high] }

/-- `Rtc::days`. -/
def Rtc.days (r : Rtc) : Nat :=
  r.days_low ||| ((r.days_high &&& 0x01) <<< 8)

/-- `Rtc::set_days`. -/
def Rtc.set_days (r : Rtc) (days : Nat) : Rtc :=
  { r with days_low := days % 256,
           days_high := (r.days_high &&& 0xFE) ||| ((days >>> 8) &&& 0x01) }

/-- `Rtc::is_halted`. -/
def Rtc.is_halted (r : Rtc) : Bool :=
  r.days_high &&& 0x40 ≠ 0

/-- `Rtc::tick`: advance the clock by one second. -/
def Rtc.tick (r : Rtc) : Rtc :=
  if r.is_halted then r
  else
    let r := { r with seconds := (r.seconds + 1) % 256 }
    if r.seconds ≥ 60 then
      let r := { r with seconds := 0, minutes := (r.minutes + 1) % 256 }
      if r.minutes ≥ 60 then
        let r := { r with minutes := 0, hours := (r.hours + 1) % 256 }
        if r.hours ≥ 24 then
          let r := { r with hours := 0 }
          let days := r.days + 1
          if days ≥ 512 then
            let r := r.set_days 0
            { r with days_high := r.days_high ||| 0x80 }
          else r.set_days days
        else r
      else r
    else r

/-- Cartridge state (`struct Cartridge`): ROM as length plus index
function, external RAM, header-derived metadata, and the MBC banking
registers. -/
structure Cartridge where
  rom_len : Nat
  rom_data : Nat → Nat
  ram : List Nat
  title : String
  mbc_type : MbcType
  is_cgb : Bool
  has_battery : Bool
  has_rtc : Bool
  rom_bank : Nat
  ram_bank : Nat
  ram_enabled : Bool
  banking_mode : Nat
  rtc : Option Rtc
  rtc_register : Nat

/-- `self.rom.get(i).copied().unwrap_or(0xFF)`. -/
def Cartridge.rom_get (c : Cartridge) (i : Nat) : Nat :=
  if i < c.rom_len then c.rom_data i else 0xFF

/-- `Cartridge::read_rom`. -/
def Cartridge.read_rom (c : Cartridge) (addr : Nat) : Nat :=
  match c.mbc_type with
  | MbcType.None => c.rom_get addr
  | MbcType.Mbc1 =>
    let offset :=
      if addr < 0x4000 then
        if c.banking_mode = 1 then
          let bank := (c.ram_bank &&& 0x03) <<< 5
          bank * 0x4000 + addr
        else addr
      else
        let bank := (c.rom_bank &&& 0x1F) ||| ((c.ram_bank &&& 0x03) <<< 5)
        let bank := if bank &&& 0x1F = 0 then bank + 1 else bank
        bank * 0x4000 + (addr - 0x4000)
    c.rom_get (offset % c.rom_len)
  | MbcType.Mbc2 =>
    let offset :=
      if addr < 0x4000 then addr
      else
        let bank := (max c.rom_bank 1) &&& 0x0F
        bank * 0x4000 + (addr - 0x4000)
    c.rom_get (offset % c.rom_len)
  | MbcType.Mbc3 =>
    let offset :=
      if addr < 0x4000 then addr
      else
        let bank := (max c.rom_bank 1) &&& 0x7F
        bank * 0x4000 + (addr - 0x4000)
    c.rom_get (offset % c.rom_len)
  | MbcType.Mbc5 =>
    let offset :=
      if addr < 0x4000 then addr
      else
        let bank := c.rom_bank
        bank * 0x4000 + (addr - 0x4000)
    c.rom_get (offset % c.rom_len)

/-- `Cartridge::write_rom` (MBC control writes). -/
def Cartridge.write_rom (c : Cartridge) (addr value : Nat) : Cartridge :=
  match c.mbc_type with
  | MbcType.None => c
  | MbcType.Mbc1 =>
    if addr ≤ 0x1FFF then
      { c with ram_enabled := (value &&& 0x0F) = 0x0A }
    else if addr ≤ 0x3FFF then
      let bank := value &&& 0x1F
      { c with rom_bank := (c.rom_bank &&& 0x60) ||| bank }
    else if addr ≤ 0x5FFF then
      { c with ram_bank := value &&& 0x03 }
    else if addr ≤ 0x7FFF then
      { c with banking_mode := value &&& 0x01 }
    else c
  | MbcType.Mbc2 =>
    if addr ≤ 0x3FFF ∧ addr &&& 0x0100 = 0 then
      { c with ram_enabled := (value &&& 0x0F) = 0x0A }
    else if addr ≤ 0x3FFF ∧ addr &&& 0x0100 ≠ 0 then
      { c with rom_bank := max (value &&& 0x0F) 1 }
    else c
  | MbcType.Mbc3 =>
    if addr ≤ 0x1FFF then
      { c with ram_enabled := (value &&& 0x0F) = 0x0A }
    else if addr ≤ 0x3FFF then
      { c with rom_bank := max (value &&& 0x7F) 1 }
    else if addr ≤ 0x5FFF then
      if value ≤ 0x03 then
        { c with ram_bank := value, rtc_register := 0 }
      else if 0x08 ≤ value ∧ value ≤ 0x0C then
        { c with rtc_register := value }
      else c
    else if addr ≤ 0x7FFF then
      match c.rtc with
      | Option.some rtc =>
        let rtc1 := if value = 0x01 ∧ rtc.latch_ready then rtc.latch else rtc
        { c with rtc := Option.some { rtc1 with latch_ready := value = 0x00 } }
      | Option.none => c
    else c
  | MbcType.Mbc5 =>
    if addr ≤ 0x1FFF then
      { c with ram_enabled := (value &&& 0x0F) = 0x0A }
    else if addr ≤ 0x2FFF then
      { c with rom_bank := (c.rom_bank &&& 0x100) ||| value }
    else if addr ≤ 0x3FFF then
      { c with rom_bank := (c.rom_bank &&& 0xFF) ||| ((value &&& 0x01) <<< 8) }
    else if addr ≤ 0x5FFF then
      { c with ram_bank := value &&& 0x0F }
    else c

/-- `Cartridge::read_ram`. -/
def Cartridge.read_ram (c : Cartridge) (addr : Nat) : Nat :=
  if ¬c.ram_enabled ∨ c.ram.length = 0 then
    if c.rtc_register ≠ 0 then
      match c.rtc with
      | Option.some rtc => rtc.read c.rtc_register
      | Option.none => 0xFF
    else 0xFF
  else
    match c.mbc_type with
    | MbcType.None => c.ram.getD (addr - 0xA000) 0xFF
    | MbcType.Mbc1 =>
      let bank := if c.banking_mode = 1 then c.ram_bank &&& 0x03 else 0
      let offset := bank * 0x2000 + (addr - 0xA000)
      c.ram.getD (offset % c.ram.length) 0xFF
    | MbcType.Mbc2 =>
      let offset := (addr - 0xA000) &&& 0x1FF
      if offset < c.ram.length then (c.ram.getD offset 0) ||| 0xF0 else 0xFF
    | MbcType.Mbc3 =>
      if c.rtc_register ≠ 0 then
        match c.rtc with
        | Option.some rtc => rtc.read c.rtc_register
        | Option.none =>
          let bank := c.ram_bank &&& 0x03
          let offset := bank * 0x2000 + (addr - 0xA000)
          c.ram.getD (offset % c.ram.length) 0xFF
      else
        let bank := c.ram_bank &&& 0x03
        let offset := bank * 0x2000 + (addr - 0xA000)
        c.ram.getD (offset % c.ram.length) 0xFF
    | MbcType.Mbc5 =>
      let bank := c.ram_bank &&& 0x0F
      let offset := bank * 0x2000 + (addr - 0xA000)
      c.ram.getD (offset % c.ram.length) 0xFF

/-- `Cartridge::write_ram`. -/
def Cartridge.write_ram (c : Cartridge) (addr value : Nat) : Cartridge :=
  if ¬c.ram_enabled then c
  else if h : c.rtc_register ≠ 0 ∧ c.rtc.isSome then
    { c with rtc := Option.some ((c.rtc.get h.2).write c.rtc_register value) }
  else if c.ram.length = 0 then c
  else
    match c.mbc_type with
    | MbcType.None => { c with ram := c.ram.set (addr - 0xA000) value }
    | MbcType.Mbc1 =>
      let bank := if c.banking_mode = 1 then c.ram_bank &&& 0x03 else 0
      let offset := bank * 0x2000 + (addr - 0xA000)
      { c with ram := c.ram.set (offset % c.ram.length) value }
    | MbcType.Mbc2 =>
      let offset := (addr - 0xA000) &&& 0x1FF
      { c with ram := c.ram.set offset (value &&& 0x0F) }
    | MbcType.Mbc3 =>
      let bank := c.ram_bank &&& 0x03
      let offset := bank * 0x2000 + (addr - 0xA000)
      { c with ram := c.ram.set (offset % c.ram.length) value }
    | MbcType.Mbc5 =>
      let bank := c.ram_bank &&& 0x0F
      let offset := bank * 0x2000 + (addr - 0xA000)
      { c with ram := c.ram.set (offset % c.ram.length) value }

/-- `Cartridge::tick_rtc`. -/
def Cartridge.tick_rtc (c : Cartridge) (cycles : Nat) : Cartridge :=
  match c.rtc with
  | Option.some rtc =>
    let rtc := { rtc with sub_seconds := rtc.sub_seconds + cycles }
    let rtc :=
      if rtc.sub_seconds ≥ 4194304 then
        { rtc with sub_seconds := rtc.sub_seconds - 4194304 }.tick
      else rtc
    { c with rtc := Option.some rtc }
  | Option.none => c

/-- Effective ROM-bank index used by `Cartridge::read_rom` for addresses
in the switchable window 0x4000..0x7FFF (the `bank` computed in each
match arm). -/
def Cartridge.effRomBank (c : Cartridge) : Nat :=
  match c.mbc_type with
  | MbcType.None => 1
  | MbcType.Mbc1 =>
    let bank := (c.rom_bank &&& 0x1F) ||| ((c.ram_bank &&& 0x03) <<< 5)
    if bank &&& 0x1F = 0 then bank + 1 else bank
  | MbcType.Mbc2 => (max c.rom_bank 1) &&& 0x0F
  | MbcType.Mbc3 => (max c.rom_bank 1) &&& 0x7F
  | MbcType.Mbc5 => c.rom_bank

/-- Cartridge states reachable from the post-`from_rom` initial banking
state (rom_bank = 1, ram_bank = 0, RAM disabled, banking mode 0,
rtc_register = 0) through the cartridge's mutating operations. -/
inductive CartReach : Cartridge → Prop where
  | init (c : Cartridge) (h1 : c.rom_bank = 1) (h2 : c.ram_bank = 0)
      (h3 : c.ram_enabled = false) (h4 : c.banking_mode = 0)
      (h5 : c.rtc_register = 0) : CartReach c
  | write_rom (c : Cartridge) (addr value : Nat) :
      CartReach c → CartReach (c.write_rom addr value)
  | write_ram (c : Cartridge) (addr value : Nat) :
      CartReach c → CartReach (c.write_ram addr value)
  | tick_rtc (c : Cartridge) (cycles : Nat) :
      CartReach c → CartReach (c.tick_rtc cycles)

/-- `Cartridge::write_ram` never touches the banking registers or the
controller kind. -/
theorem Cartridge.write_ram_banking (c : Cartridge) (addr value : Nat) :
    (c.write_ram addr value).rom_bank = c.rom_bank ∧
    (c.write_ram addr value).mbc_type = c.mbc_type := by
  unfold Cartridge.write_ram
  repeat' split
  all_goals simp

/-- `Cartridge::tick_rtc` never touches the banking registers or the
controller kind. -/
theorem Cartridge.tick_rtc_banking (c : Cartridge) (cycles : Nat) :
    (c.tick_rtc cycles).rom_bank = c.rom_bank ∧
    (c.tick_rtc cycles).mbc_type = c.mbc_type := by
  unfold Cartridge.tick_rtc
  repeat' split
  all_goals simp

/-- `Cartridge::write_rom` never changes the controller kind. -/
theorem Cartridge.write_rom_mbc (c : Cartridge) (addr value : Nat) :
    (c.write_rom addr value).mbc_type = c.mbc_type := by
  unfold Cartridge.write_rom
  repeat' split
  all_goals simp

/-- Effect of `Cartridge::write_rom` on the MBC2 ROM bank: unchanged or
set to `max (value & 0x0F) 1`. -/
theorem Cartridge.write_rom_bank_mbc2 (c : Cartridge) (addr value : Nat)
    (hm : c.mbc_type = MbcType.Mbc2) :
    (c.write_rom addr value).rom_bank = c.rom_bank ∨
    (c.write_rom addr value).rom_bank = max (value &&& 0x0F) 1 := by
  unfold Cartridge.write_rom
  rw [hm]
  repeat' split
  all_goals first | (left; rfl) | (right; rfl) | simp_all

/-- Effect of `Cartridge::write_rom` on the MBC3 ROM bank: unchanged or
set to `max (value & 0x7F) 1`. -/
theorem Cartridge.write_rom_bank_mbc3 (c : Cartridge) (addr value : Nat)
    (hm : c.mbc_type = MbcType.Mbc3) :
    (c.write_rom addr value).rom_bank = c.rom_bank ∨
    (c.write_rom addr value).rom_bank = max (value &&& 0x7F) 1 := by
  unfold Cartridge.write_rom
  rw [hm]
  repeat' split
  all_goals first | (left; rfl) | (right; rfl) | simp_all

/-- In every reachable cartridge state the MBC2 ROM bank lies in 1..15
and the MBC3 ROM bank lies in 1..127. -/
theorem cart_reach_bank_bound (c : Cartridge) (h : CartReach c) :
    (c.mbc_type = MbcType.Mbc2 → 1 ≤ c.rom_bank ∧ c.rom_bank ≤ 15) ∧
    (c.mbc_type = MbcType.Mbc3 → 1 ≤ c.rom_bank ∧ c.rom_bank ≤ 127) := by
  induction h with
  | init c h1 h2 h3 h4 h5 =>
    constructor <;> intro _ <;> omega
  | write_rom c addr value hr ih =>
    have hmbc := Cartridge.write_rom_mbc c addr value
    constructor <;> intro hh
    · have hcm : c.mbc_type = MbcType.Mbc2 := by rw [← hmbc]; exact hh
      rcases Cartridge.write_rom_bank_mbc2 c addr value hcm with he | he
      · rw [he]; exact ih.1 hcm
      · rw [he]
        have h15 : value &&& 0x0F ≤ 15 := Nat.and_le_right
        exact ⟨le_max_right _ 1, Nat.max_le.mpr ⟨h15, by norm_num⟩⟩
    · have hcm : c.mbc_type = MbcType.Mbc3 := by rw [← hmbc]; exact hh
      rcases Cartridge.write_rom_bank_mbc3 c addr value hcm with he | he
      · rw [he]; exact ih.2 hcm
      · rw [he]
        have h127 : value &&& 0x7F ≤ 127 := Nat.and_le_right
        exact ⟨le_max_right _ 1, Nat.max_le.mpr ⟨h127, by norm_num⟩⟩
  | write_ram c addr value hr ih =>
    have hb := Cartridge.write_ram_banking c addr value
    rw [hb.2, hb.1]
    exact ih
  | tick_rtc c cycles hr ih =>
    have hb := Cartridge.tick_rtc_banking c cycles
    rw [hb.2, hb.1]
    exact ih

/-- Plain MBC5 cartridge in its initial banking state, for the C6
bank-0 exhibit. -/
def c6mbc5 : Cartridge :=
  { rom_len := 0x8000, rom_data := fun _ => 0, ram := [], title := "",
    mbc_type := MbcType.Mbc5, is_cgb := false, has_battery := false,
    has_rtc := false, rom_bank := 1, ram_bank := 0, ram_enabled := false,
    banking_mode := 0, rtc := Option.none, rtc_register := 0 }

/-- C6: in every reachable cartridge state the effective ROM-bank index
used by `Cartridge::read_rom` for the switchable window is non-zero for
MBC1, MBC2 and MBC3; the window read indeed uses that bank; and for MBC5
a reachable state attains effective bank 0. -/
theorem c6_effective_rom_bank :
    (∀ c : Cartridge, CartReach c →
      (c.mbc_type = MbcType.Mbc1 ∨ c.mbc_type = MbcType.Mbc2 ∨
        c.mbc_type = MbcType.Mbc3) →
      c.effRomBank ≠ 0) ∧
    (∀ (c : Cartridge) (addr : Nat), c.mbc_type ≠ MbcType.None →
      0x4000 ≤ addr → addr ≤ 0x7FFF →
      c.read_rom addr =
        c.rom_get ((c.effRomBank * 0x4000 + (addr - 0x4000)) % c.rom_len)) ∧
    (∃ c : Cartridge, CartReach c ∧ c.mbc_type = MbcType.Mbc5 ∧
      c.effRomBank = 0) := by
  refine ⟨?_, ?_, ?_⟩
  · intro c hr hm
    rcases hm with hm | hm | hm
    · simp only [Cartridge.effRomBank, hm]
      split
      · exact Nat.succ_ne_zero _
      · rename_i hb
        intro h0
        rw [h0] at hb
        exact hb (Nat.zero_and 0x1F)
    · have hb := (cart_reach_bank_bound c hr).1 hm
      simp only [Cartridge.effRomBank, hm]
      have hmax : max c.rom_bank 1 = c.rom_bank := Nat.max_eq_left hb.1
      rw [hmax, show (0x0F : Nat) = 2 ^ 4 - 1 from by norm_num,
        Nat.and_pow_two_sub_one_eq_mod]
      have : c.rom_bank % 2 ^ 4 = c.rom_bank := Nat.mod_eq_of_lt (by omega)
      omega
    · have hb := (cart_reach_bank_bound c hr).2 hm
      simp only [Cartridge.effRomBank, hm]
      have hmax : max c.rom_bank 1 = c.rom_bank := Nat.max_eq_left hb.1
      rw [hmax, show (0x7F : Nat) = 2 ^ 7 - 1 from by norm_num,
        Nat.and_pow_two_sub_one_eq_mod]
      have : c.rom_bank % 2 ^ 7 = c.rom_bank := Nat.mod_eq_of_lt (by omega)
      omega
  · intro c addr hm h1 h2
    have hlt : ¬addr < 0x4000 := by omega
    cases hmt : c.mbc_type
    · exact absurd hmt hm
    all_goals
      simp only [Cartridge.read_rom, Cartridge.effRomBank, hmt, hlt, if_false]
  · refine ⟨c6mbc5.write_rom 0x2000 0, ?_, rfl, rfl⟩
    exact CartReach.write_rom c6mbc5 0x2000 0
      (CartReach.init c6mbc5 rfl rfl rfl rfl rfl)

/-- Plain MBC2 cartridge in its initial banking state, for the C6
witness. -/
def c6mbc2 : Cartridge :=
  { rom_len := 0x8000, rom_data := fun i => i % 256, ram := [], title := "",
    mbc_type := MbcType.Mbc2, is_cgb := false, has_battery := false,
    has_rtc := false, rom_bank := 1, ram_bank := 0, ram_enabled := false,
    banking_mode := 0, rtc := Option.none, rtc_register := 0 }

/-- C6, witness at the concrete MBC2 cartridge `c6mbc2`. -/
theorem c6_effective_rom_bank_witness :
    c6mbc2.effRomBank ≠ 0 ∧
    c6mbc2.read_rom 0x4100 =
      c6mbc2.rom_get ((c6mbc2.effRomBank * 0x4000 + (0x4100 - 0x4000)) %
        c6mbc2.rom_len) :=
  ⟨c6_effective_rom_bank.1 c6mbc2 (CartReach.init c6mbc2 rfl rfl rfl rfl rfl)
      (Or.inr (Or.inl rfl)),
   c6_effective_rom_bank.2.1 c6mbc2 0x4100 (by decide) (by norm_num)
      (by norm_num)⟩

/-- Two-megabyte MBC1 cartridge (header type 0x01) in its initial state,
parametrized by the ROM contents. -/
def c7cartF (f : Nat → Nat) : Cartridge :=
  { rom_len := 0x200000, rom_data := f, ram := [],
    title := "", mbc_type := MbcType.Mbc1, is_cgb := false,
    has_battery := false, has_rtc := false, rom_bank := 1, ram_bank := 0,
    ram_enabled := false, banking_mode := 0, rtc := Option.none,
    rtc_register := 0 }

/-- Two-megabyte MBC1 cartridge whose ROM byte at offset i is the bank
number i / 0x4000 (mod 256), so reads identify the selected bank. -/
def c7cart : Cartridge :=
  c7cartF (fun i => (i / 0x4000) % 256)

/-- C7, counterexample: after writing 0x00 and then 0x01 to 0x2000 the
two reads at 0x4000 agree (bank 0 is coerced to bank 1), but after
writing 0x20 to 0x2000 the read at 0x4000 returns the byte of bank 1
(the upper-2-bit field is still 0), not the byte at ROM offset
0x20 * 0x4000 = bank 32 as the claim states. -/
theorem c7_counterexample :
    ((c7cart.write_rom 0x2000 0x00).read_rom 0x4000 =
      ((c7cart.write_rom 0x2000 0x00).write_rom 0x2000 0x01).read_rom 0x4000) ∧
    (((c7cart.write_rom 0x2000 0x00).write_rom 0x2000 0x01).write_rom
        0x2000 0x20).read_rom 0x4000 = 1 ∧
    c7cart.rom_data (0x20 * 0x4000) = 32 ∧
    ¬((((c7cart.write_rom 0x2000 0x00).write_rom 0x2000 0x01).write_rom
        0x2000 0x20).read_rom 0x4000 =
      c7cart.rom_data (0x20 * 0x4000)) := by
  refine ⟨by decide, by decide, by decide, by decide⟩

/-- C7, amended: on a 2 MiB MBC1 cartridge, writing 0x00 and then 0x01
to 0x2000 and reading at 0x4000 returns the same byte both times (bank 0
is coerced to bank 1); after writing 0x20 to 0x2000 the lower-5-bit field
is 0 and is again coerced to 1 at read time while the upper-2-bit field
is still 0, so reading at 0x4000 returns the ROM byte at offset
1 * 0x4000 — the same byte as the first two reads — and not the byte of
bank 32. -/
theorem c7_amended : ∀ f : Nat → Nat,
    ((c7cartF f).write_rom 0x2000 0x00).read_rom 0x4000 = f 0x4000 ∧
    (((c7cartF f).write_rom 0x2000 0x00).write_rom 0x2000 0x01).read_rom
        0x4000 = f 0x4000 ∧
    ((((c7cartF f).write_rom 0x2000 0x00).write_rom 0x2000 0x01).write_rom
        0x2000 0x20).read_rom 0x4000 = f 0x4000 := by
  intro f
  refine ⟨?_, ?_, ?_⟩ <;>
    · simp only [c7cartF, Cartridge.write_rom, Cartridge.read_rom,
        Cartridge.rom_get]
      norm_num
      all_goals
        split
        · congr 1
          try decide
        · rename_i h
          exact absurd (by decide) h

/-! ## MMU (src/core/src/mmu/mod.rs)

Byte arrays (`Vec<u8>`, `[u8; N]`) are `List Nat`; indexed reads
`xs[i]` / `xs.get(i)...unwrap_or(0xFF)` become `List.getD` and writes
become `List.set`.  The `Vec<(u16, u8)>` audio FIFO is a list with
`push` as append. -/

/-- Game Boy model (`enum GbModel` of src/core/src/lib.rs). -/
inductive GbModel where
  | Dmg
  | Pocket
  | Cgb
  | CgbDmg
deriving Repr, DecidableEq

/-- `matches!(self.model, GbModel::Cgb | GbModel::CgbDmg)`. -/
def GbModel.is_cgb_mode (m : GbModel) : Bool :=
  match m with
  | GbModel.Cgb => true
  | GbModel.CgbDmg => true
  | _ => false

/-- MMU state: the fields of `struct Mmu`. -/
structure Mmu where
  cartridge : Cartridge
  vram : List Nat
  wram : List Nat
  oam : List Nat
  hram : List Nat
  io : List Nat
  ie : Nat
  model : GbModel
  vram_bank : Nat
  wram_bank : Nat
  dma_active : Bool
  dma_byte : Nat
  dma_source : Nat
  hdma_active : Bool
  hdma_source : Nat
  hdma_dest : Nat
  hdma_length : Nat
  hdma_hblank : Bool
  button_state : Nat
  audio_writes : List (Nat × Nat)

/-- VRAM bank size (8 KiB). -/
def VRAM_SIZE : Nat := 0x2000

/-- WRAM bank size (4 KiB). -/
def WRAM_BANK_SIZE : Nat := 0x1000

/-- `Mmu::read_io`. -/
def Mmu.read_io (m : Mmu) (addr : Nat) : Nat :=
  let reg := addr &&& 0x7F
  if addr = 0xFF00 then
    let select := m.io.getD 0x00 0
    let result := select ||| 0xC0
    let result :=
      if select &&& 0x20 = 0 then
        result &&& (0xF0 ||| ((m.button_state >>> 4) &&& 0x0F))
      else result
    let result :=
      if select &&& 0x10 = 0 then
        result &&& (0xF0 ||| (m.button_state &&& 0x0F))
      else result
    result
  else if addr = 0xFF01 then m.io.getD 0x01 0
  else if addr = 0xFF02 then (m.io.getD 0x02 0) ||| 0x7E
  else if addr = 0xFF04 then m.io.getD 0x04 0
  else if addr = 0xFF05 then m.io.getD 0x05 0
  else if addr = 0xFF06 then m.io.getD 0x06 0
  else if addr = 0xFF07 then (m.io.getD 0x07 0) ||| 0xF8
  else if addr = 0xFF0F then (m.io.getD 0x0F 0) ||| 0xE0
  else if 0xFF10 ≤ addr ∧ addr ≤ 0xFF26 then m.io.getD reg 0
  else if 0xFF30 ≤ addr ∧ addr ≤ 0xFF3F then m.io.getD reg 0
  else if addr = 0xFF40 then m.io.getD 0x40 0
  else if addr = 0xFF41 then (m.io.getD 0x41 0) ||| 0x80
  else if addr = 0xFF42 then m.io.getD 0x42 0
  else if addr = 0xFF43 then m.io.getD 0x43 0
  else if addr = 0xFF44 then m.io.getD 0x44 0
  else if addr = 0xFF45 then m.io.getD 0x45 0
  else if addr = 0xFF46 then m.io.getD 0x46 0
  else if addr = 0xFF47 then m.io.getD 0x47 0
  else if addr = 0xFF48 then m.io.getD 0x48 0
  else if addr = 0xFF49 then m.io.getD 0x49 0
  else if addr = 0xFF4A then m.io.getD 0x4A 0
  else if addr = 0xFF4B then m.io.getD 0x4B 0
  else if addr = 0xFF4D then
    if m.model.is_cgb_mode then (m.io.getD 0x4D 0) ||| 0x7E else 0xFF
  else if addr = 0xFF4F then
    if m.model.is_cgb_mode then m.vram_bank ||| 0xFE else 0xFF
  else if 0xFF51 ≤ addr ∧ addr ≤ 0xFF55 then
    if m.model.is_cgb_mode then
      if addr = 0xFF55 then
        if m.hdma_active then m.hdma_length &&& 0x7F else 0xFF
      else m.io.getD reg 0
    else 0xFF
  else if addr = 0xFF68 then
    if m.model.is_cgb_mode then m.io.getD 0x68 0 else 0xFF
  else if addr = 0xFF69 then
    if m.model.is_cgb_mode then m.io.getD 0x69 0 else 0xFF
  else if addr = 0xFF6A then
    if m.model.is_cgb_mode then m.io.getD 0x6A 0 else 0xFF
  else if addr = 0xFF6B then
    if m.model.is_cgb_mode then m.io.getD 0x6B 0 else 0xFF
  else if addr = 0xFF70 then
    if m.model.is_cgb_mode then m.wram_bank ||| 0xF8 else 0xFF
  else 0xFF

/-- Body of `Mmu::read_byte`.  The echo-RAM arm recurses at
`addr - 0x2000`, which always lands below 0xE000, so the recursion depth
is exactly one; it is bounded here by a fuel argument (the fuel-0 case is
unreachable from `Mmu.read_byte`). -/
def Mmu.read_byte_go : Nat → Mmu → Nat → Nat
  | 0, _, _ => 0xFF
  | fuel+1, m, addr =>
    if addr ≤ 0x3FFF then m.cartridge.read_rom addr
    else if addr ≤ 0x7FFF then m.cartridge.read_rom addr
    else if addr ≤ 0x9FFF then
      let offset := addr - 0x8000
      let bank_offset := m.vram_bank * VRAM_SIZE
      m.vram.getD (bank_offset + offset) 0xFF
    else if addr ≤ 0xBFFF then m.cartridge.read_ram addr
    else if addr ≤ 0xCFFF then m.wram.getD (addr - 0xC000) 0xFF
    else if addr ≤ 0xDFFF then
      let offset := addr - 0xD000
      let bank := max m.wram_bank 1
      let bank_offset := bank * WRAM_BANK_SIZE
      m.wram.getD (bank_offset + offset) 0xFF
    else if addr ≤ 0xFDFF then Mmu.read_byte_go fuel m (addr - 0x2000)
    else if addr ≤ 0xFE9F then
      if m.dma_active then 0xFF else m.oam.getD (addr - 0xFE00) 0xFF
    else if addr ≤ 0xFEFF then 0xFF
    else if addr ≤ 0xFF7F then m.read_io addr
    else if addr ≤ 0xFFFE then m.hram.getD (addr - 0xFF80) 0xFF
    else m.ie

/-- `Mmu::read_byte`. -/
def Mmu.read_byte (m : Mmu) (addr : Nat) : Nat :=
  Mmu.read_byte_go 2 m addr

/-- `Mmu::start_dma`. -/
def Mmu.start_dma (m : Mmu) (value : Nat) : Mmu :=
  { m with dma_active := true, dma_byte := 0, dma_source := value <<< 8 }

/-- Write restricted to the VRAM and external-RAM arms of
`Mmu::write_byte`.  The HDMA engines write only to
0x8000 + (hdma_dest & 0x1FFF) + i with i < 16, which always lands in
these two arms, so the source's recursive `write_byte` call from the
HDMA loops is embedded through this non-recursive restriction. -/
def Mmu.hdma_write (m : Mmu) (addr value : Nat) : Mmu :=
  if 0x8000 ≤ addr ∧ addr ≤ 0x9FFF then
    let offset := addr - 0x8000
    let bank_offset := m.vram_bank * VRAM_SIZE
    { m with vram := m.vram.set (bank_offset + offset) value }
  else if 0xA000 ≤ addr ∧ addr ≤ 0xBFFF then
    { m with cartridge := m.cartridge.write_ram addr value }
  else m

/-- One 16-byte block of `Mmu::run_general_hdma`'s outer loop. -/
def Mmu.hdma_block (m : Mmu) : Mmu :=
  let m1 := (List.range 16).foldl (fun mm i =>
    let src := mm.hdma_source + i
    let dst := 0x8000 + (mm.hdma_dest &&& 0x1FFF) + i
    mm.hdma_write dst (mm.read_byte src)) m
  { m1 with hdma_source := m1.hdma_source + 16,
            hdma_dest := m1.hdma_dest + 16 }

/-- `Mmu::run_general_hdma`. -/
def Mmu.run_general_hdma (m : Mmu) : Mmu :=
  let blocks := m.hdma_length + 1
  let m1 := (List.range blocks).foldl (fun mm _ => mm.hdma_block) m
  { m1 with hdma_active := false, hdma_length := 0xFF }

/-- `Mmu::start_hdma`. -/
def Mmu.start_hdma (m : Mmu) (value : Nat) : Mmu :=
  if value &&& 0x80 = 0 then
    let m1 := { m with hdma_length := value &&& 0x7F, hdma_hblank := false,
                       hdma_active := true }
    m1.run_general_hdma
  else
    { m with hdma_length := value &&& 0x7F, hdma_hblank := true,
             hdma_active := true }

/-- `Mmu::step_hblank_hdma`. -/
def Mmu.step_hblank_hdma (m : Mmu) : Mmu :=
  if ¬m.hdma_active ∨ ¬m.hdma_hblank then m
  else
    let m1 := (List.range 16).foldl (fun mm i =>
      let src := mm.hdma_source + i
      let dst := 0x8000 + (mm.hdma_dest &&& 0x1FFF) + i
      mm.hdma_write dst (mm.read_byte src)) m
    let m1 := { m1 with hdma_source := m1.hdma_source + 16,
                        hdma_dest := m1.hdma_dest + 16 }
    if m1.hdma_length = 0 then
      { m1 with hdma_active := false, hdma_length := 0xFF }
    else
      { m1 with hdma_length := m1.hdma_length - 1 }

/-- `Mmu::write_io`. -/
def Mmu.write_io (m : Mmu) (addr value : Nat) : Mmu :=
  let reg := addr &&& 0x7F
  if addr = 0xFF00 then
    let v := ((m.io.getD 0x00 0) &&& 0xCF) ||| (value &&& 0x30)
    { m with io := m.io.set 0x00 v }
  else if addr = 0xFF01 then { m with io := m.io.set 0x01 value }
  else if addr = 0xFF02 then { m with io := m.io.set 0x02 value }
  else if addr = 0xFF04 then { m with io := m.io.set 0x04 0 }
  else if addr = 0xFF05 then { m with io := m.io.set 0x05 value }
  else if addr = 0xFF06 then { m with io := m.io.set 0x06 value }
  else if addr = 0xFF07 then { m with io := m.io.set 0x07 (value &&& 0x07) }
  else if addr = 0xFF0F then { m with io := m.io.set 0x0F (value &&& 0x1F) }
  else if 0xFF10 ≤ addr ∧ addr ≤ 0xFF26 then
    { m with io := m.io.set reg value,
             audio_writes := m.audio_writes ++ [(addr, value)] }
  else if 0xFF30 ≤ addr ∧ addr ≤ 0xFF3F then
    { m with io := m.io.set reg value,
             audio_writes := m.audio_writes ++ [(addr, value)] }
  else if addr = 0xFF40 then { m with io := m.io.set 0x40 value }
  else if addr = 0xFF41 then
    let v := ((m.io.getD 0x41 0) &&& 0x07) ||| (value &&& 0xF8)
    { m with io := m.io.set 0x41 v }
  else if addr = 0xFF42 then { m with io := m.io.set 0x42 value }
  else if addr = 0xFF43 then { m with io := m.io.set 0x43 value }
  else if addr = 0xFF44 then m
  else if addr = 0xFF45 then { m with io := m.io.set 0x45 value }
  else if addr = 0xFF46 then
    ({ m with io := m.io.set 0x46 value }).start_dma value
  else if addr = 0xFF47 then { m with io := m.io.set 0x47 value }
  else if addr = 0xFF48 then { m with io := m.io.set 0x48 value }
  else if addr = 0xFF49 then { m with io := m.io.set 0x49 value }
  else if addr = 0xFF4A then { m with io := m.io.set 0x4A value }
  else if addr = 0xFF4B then { m with io := m.io.set 0x4B value }
  else if addr = 0xFF4D then
    if m.model.is_cgb_mode then
      let v := ((m.io.getD 0x4D 0) &&& 0x80) ||| (value &&& 0x01)
      { m with io := m.io.set 0x4D v }
    else m
  else if addr = 0xFF4F then
    if m.model.is_cgb_mode then { m with vram_bank := value &&& 0x01 }
    else m
  else if addr = 0xFF51 then
    if m.model.is_cgb_mode then
      { m with hdma_source := (m.hdma_source &&& 0x00FF) ||| ((value % 256) <<< 8) }
    else m
  else if addr = 0xFF52 then
    if m.model.is_cgb_mode then
      { m with hdma_source := (m.hdma_source &&& 0xFF00) ||| (value &&& 0xF0) }
    else m
  else if addr = 0xFF53 then
    if m.model.is_cgb_mode then
      { m with hdma_dest := (m.hdma_dest &&& 0x00FF) ||| ((value &&& 0x1F) <<< 8) }
    else m
  else if addr = 0xFF54 then
    if m.model.is_cgb_mode then
      { m with hdma_dest := (m.hdma_dest &&& 0xFF00) ||| (value &&& 0xF0) }
    else m
  else if addr = 0xFF55 then
    if m.model.is_cgb_mode then m.start_hdma value else m
  else if addr = 0xFF68 then
    if m.model.is_cgb_mode then { m with io := m.io.set 0x68 value } else m
  else if addr = 0xFF69 then
    if m.model.is_cgb_mode then
      let m1 := { m with io := m.io.set 0x69 value }
      if (m1.io.getD 0x68 0) &&& 0x80 ≠ 0 then
        let v := ((m1.io.getD 0x68 0) &&& 0xC0) |||
          (((m1.io.getD 0x68 0) + 1) &&& 0x3F)
        { m1 with io := m1.io.set 0x68 v }
      else m1
    else m
  else if addr = 0xFF6A then
    if m.model.is_cgb_mode then { m with io := m.io.set 0x6A value } else m
  else if addr = 0xFF6B then
    if m.model.is_cgb_mode then
      let m1 := { m with io := m.io.set 0x6B value }
      if (m1.io.getD 0x6A 0) &&& 0x80 ≠ 0 then
        let v := ((m1.io.getD 0x6A 0) &&& 0xC0) |||
          (((m1.io.getD 0x6A 0) + 1) &&& 0x3F)
        { m1 with io := m1.io.set 0x6A v }
      else m1
    else m
  else if addr = 0xFF70 then
    if m.model.is_cgb_mode then
      { m with wram_bank := max (value &&& 0x07) 1 }
    else m
  else m

/-- Body of `Mmu::write_byte`.  The echo-RAM arm recurses at
`addr - 0x2000`; as for reads the recursion depth is exactly one and is
bounded by a fuel argument (the fuel-0 case is unreachable from
`Mmu.write_byte`). -/
def Mmu.write_byte_go : Nat → Mmu → Nat → Nat → Mmu
  | 0, m, _, _ => m
  | fuel+1, m, addr, value =>
    if addr ≤ 0x7FFF then
      { m with cartridge := m.cartridge.write_rom addr value }
    else if addr ≤ 0x9FFF then
      let offset := addr - 0x8000
      let bank_offset := m.vram_bank * VRAM_SIZE
      { m with vram := m.vram.set (bank_offset + offset) value }
    else if addr ≤ 0xBFFF then
      { m with cartridge := m.cartridge.write_ram addr value }
    else if addr ≤ 0xCFFF then
      { m with wram := m.wram.set (addr - 0xC000) value }
    else if addr ≤ 0xDFFF then
      let offset := addr - 0xD000
      let bank := max m.wram_bank 1
      let bank_offset := bank * WRAM_BANK_SIZE
      { m with wram := m.wram.set (bank_offset + offset) value }
    else if addr ≤ 0xFDFF then Mmu.write_byte_go fuel m (addr - 0x2000) value
    else if addr ≤ 0xFE9F then
      if ¬m.dma_active then
        { m with oam := m.oam.set (addr - 0xFE00) value }
      else m
    else if addr ≤ 0xFEFF then m
    else if addr ≤ 0xFF7F then m.write_io addr value
    else if addr ≤ 0xFFFE then
      { m with hram := m.hram.set (addr - 0xFF80) value }
    else { m with ie := value }

/-- `Mmu::write_byte`. -/
def Mmu.write_byte (m : Mmu) (addr value : Nat) : Mmu :=
  Mmu.write_byte_go 2 m addr value

/-- `Mmu::step_dma`: copy one byte per M-cycle while OAM DMA is active
(`dma_byte` is a `u8`, so its increment wraps at 256). -/
def Mmu.step_dma (m : Mmu) : Mmu :=
  if ¬m.dma_active then m
  else
    let src := m.dma_source + m.dma_byte
    let value := m.read_byte src
    let m1 := { m with oam := m.oam.set m.dma_byte value,
                       dma_byte := (m.dma_byte + 1) % 256 }
    if m1.dma_byte ≥ 160 then { m1 with dma_active := false } else m1

/-- `Mmu::request_interrupt`. -/
def Mmu.request_interrupt (m : Mmu) (flag : Nat) : Mmu :=
  { m with io := m.io.set 0x0F ((m.io.getD 0x0F 0) ||| flag) }


/-- C5: while OAM DMA is active, CPU writes to 0xFE00..0xFE9F leave OAM
unchanged and CPU reads of that range return 0xFF; each DMA step copies
one byte from source+counter (read through the MMU) into OAM[counter]
and increments the counter; the transfer deactivates exactly when the
counter reaches 160; and a DMA step with the engine inactive is a no-op. -/
theorem c5_oam_dma :
    (∀ (m : Mmu) (addr value : Nat), m.dma_active = true →
      0xFE00 ≤ addr → addr ≤ 0xFE9F →
      (m.write_byte addr value).oam = m.oam ∧ m.read_byte addr = 0xFF) ∧
    (∀ m : Mmu, m.dma_active = true → m.dma_byte < 160 →
      (m.step_dma).oam =
        m.oam.set m.dma_byte (m.read_byte (m.dma_source + m.dma_byte)) ∧
      (m.step_dma).dma_byte = m.dma_byte + 1 ∧
      ((m.step_dma).dma_active = false ↔ 160 ≤ m.dma_byte + 1)) ∧
    (∀ m : Mmu, m.dma_active = false → m.step_dma = m) := by
  refine ⟨?_, ?_, ?_⟩
  · intro m addr value hdma h1 h2
    constructor
    · show (Mmu.write_byte_go (1+1) m addr value).oam = m.oam
      simp only [Mmu.write_byte_go]
      repeat rw [if_neg (by omega : ¬ _ ≤ _)]
      rw [if_pos (by omega), hdma]
      simp
    · show Mmu.read_byte_go (1+1) m addr = 0xFF
      simp only [Mmu.read_byte_go]
      repeat rw [if_neg (by omega : ¬ _ ≤ _)]
      rw [if_pos (by omega), hdma]
      simp
  · intro m hdma hlt
    unfold Mmu.step_dma
    rw [hdma]
    simp only [Bool.not_true, Bool.false_eq_true, if_false]
    by_cases h160 : 160 ≤ m.dma_byte + 1
    · have hc : (m.dma_byte + 1) % 256 ≥ 160 := by omega
      rw [if_pos hc]
      refine ⟨rfl, by simp; omega, ?_⟩
      simp [h160]
    · have hc : ¬ ((m.dma_byte + 1) % 256 ≥ 160) := by omega
      rw [if_neg hc]
      refine ⟨rfl, by simp; omega, ?_⟩
      simp [h160]
  · intro m hdma
    unfold Mmu.step_dma
    rw [hdma]
    simp

/-- Concrete MMU with OAM DMA active (counter 5, source 0xC000), for the
C5 witness. -/
def c5m : Mmu :=
  { cartridge := c6mbc2, vram := List.replicate 16 0,
    wram := List.replicate 16 0x42, oam := List.replicate 160 9,
    hram := List.replicate 127 0, io := List.replicate 128 0, ie := 0,
    model := GbModel.Dmg, vram_bank := 0, wram_bank := 1,
    dma_active := true, dma_byte := 5, dma_source := 0xC000,
    hdma_active := false, hdma_source := 0, hdma_dest := 0,
    hdma_length := 0, hdma_hblank := false, button_state := 0xFF,
    audio_writes := [] }

/-- C5, witness at the concrete MMU `c5m`. -/
theorem c5_oam_dma_witness :
    ((c5m.write_byte 0xFE10 0x77).oam = c5m.oam ∧
      c5m.read_byte 0xFE10 = 0xFF) ∧
    ((c5m.step_dma).oam =
        c5m.oam.set c5m.dma_byte (c5m.read_byte (c5m.dma_source + c5m.dma_byte)) ∧
      (c5m.step_dma).dma_byte = c5m.dma_byte + 1 ∧
      ((c5m.step_dma).dma_active = false ↔ 160 ≤ c5m.dma_byte + 1)) ∧
    ({ c5m with dma_active := false } : Mmu).step_dma =
      { c5m with dma_active := false } :=
  ⟨c5_oam_dma.1 c5m 0xFE10 0x77 (by decide) (by norm_num) (by norm_num),
   c5_oam_dma.2.1 c5m (by decide) (by decide),
   c5_oam_dma.2.2 { c5m with dma_active := false } (by decide)⟩

/-! ## CPU-to-timer wiring (src/core/src/lib.rs)

`GameBoy::step` runs `self.cpu.step(&mut self.mmu)`: the CPU executes an
instruction with mutable access to the MMU only, so every memory store a
program performs goes through `Mmu::write_byte`.  The `Timer` unit lives
in a separate field of `GameBoy` that the CPU's memory path cannot
reach, and its register functions (`Timer::write_div`, `write_tima`,
`write_tma`, `write_tac`, `read_div`, ...) have no callers anywhere in
the crate. -/

/-- The `GameBoy` fields relevant to the DIV-write path: the MMU, which
the CPU writes through, and the timer unit stepped by
`sync_components`.  The remaining units (cpu registers, ppu, apu,
joypad, serial) take no part in this path. -/
structure GameBoy where
  mmu : Mmu
  timer : Timer

/-- A CPU store of `value` at `addr`: `Cpu::step` receives only
`&mut self.mmu` (`GameBoy::step`, src/core/src/lib.rs), so the store is
`Mmu::write_byte` on the `mmu` field. -/
def GameBoy.cpuWrite (gb : GameBoy) (addr value : Nat) : GameBoy :=
  { gb with mmu := gb.mmu.write_byte addr value }

/-- Concrete machine for the C1 exhibit: the timer is enabled (TAC =
0x05 selects divider bit 3), the divider counter is 0xABCC (bit 3 set),
TIMA is 0x10. -/
def c1gb : GameBoy :=
  { mmu := { c5m with dma_active := false,
                      io := (List.replicate 128 0).set 0x04 0xAB },
    timer := ⟨0xABCC, 0x10, 0x00, 0x05, false, false⟩ }

/-- C1, code-bug exhibit: a CPU write to DIV (0xFF04) only zeroes the
MMU's io[0x04] shadow byte (`Mmu::write_io`); the timer unit is never
informed — on `c1gb` its divider counter still reads 0xABCC and TIMA is
unchanged after the write — even though `Timer::write_div`, the
reset-with-increment-glitch semantics the claim describes (and which no
code in the crate calls), would have reset the counter to 0 and bumped
TIMA to 0x11 because the timer is enabled and the selected divider
bit is 1. -/
theorem c1_div_write_unwired :
    (∀ (gb : GameBoy) (addr value : Nat),
      (gb.cpuWrite addr value).timer = gb.timer) ∧
    (c1gb.cpuWrite 0xFF04 0x5A).mmu.io.getD 0x04 0 = 0 ∧
    (c1gb.cpuWrite 0xFF04 0x5A).timer.div_counter = 0xABCC ∧
    (c1gb.cpuWrite 0xFF04 0x5A).timer.tima = 0x10 ∧
    (c1gb.timer.write_div).div_counter = 0 ∧
    (c1gb.timer.write_div).tima = 0x11 :=
  ⟨fun _ _ _ => rfl, by decide, by decide, by decide, by decide, by decide⟩
/-! ## PPU (src/core/src/ppu/mod.rs)

The `Ppu` state keeps the fields that drive the mode state machine:
`mode`, `cycles`, `ly`, `window_line` and `stat_interrupt_line`.  The
`framebuffer`, `model` and the CGB palette arrays are omitted:
`Ppu::render_scanline` (called from the PixelTransfer arm of
`Ppu::step` with an immutable `&Mmu`) writes only the framebuffer and
reads only the palettes/model, so dropping the call leaves every
modelled field, the MMU and the step result unchanged. -/


/-- The Rust `PpuMode` enum. -/
inductive PpuMode where
  | HBlank
  | VBlank
  | OamSearch
  | PixelTransfer
deriving Repr, DecidableEq

/-- The `as u8` value of a mode (the enum discriminants). -/
def PpuMode.toNat : PpuMode → Nat
  | .HBlank => 0
  | .VBlank => 1
  | .OamSearch => 2
  | .PixelTransfer => 3

/-- The Rust `PpuStepResult`. -/
structure PpuStepResult where
  vblank_interrupt : Bool
  stat_interrupt : Bool
deriving Repr, DecidableEq

/-- The mode-machine fields of the Rust `Ppu` struct. -/
structure Ppu where
  mode : PpuMode
  cycles : Nat
  ly : Nat
  window_line : Nat
  stat_interrupt_line : Bool
deriving Repr, DecidableEq

/-- `Ppu::check_stat_interrupt` (its `_mmu` parameter is unused in the
source): raises the line and reports whether it was low before. -/
def Ppu.check_stat_interrupt (p : Ppu) : Ppu × Bool :=
  ({ p with stat_interrupt_line := true }, !p.stat_interrupt_line)

/-- `Ppu::check_lyc`.  `!0x04` on u8 is 0xFB. -/
def Ppu.check_lyc (p : Ppu) (m : Mmu) (r : PpuStepResult) :
    Ppu × Mmu × PpuStepResult :=
  let lyc := m.io.getD 0x45 0
  let stat := m.io.getD 0x41 0
  if p.ly = lyc then
    let m1 := { m with io := m.io.set 0x41 (stat ||| 0x04) }
    if stat &&& 0x40 ≠ 0 then
      let pb := p.check_stat_interrupt
      (pb.1, m1, { r with stat_interrupt := pb.2 })
    else (p, m1, r)
  else (p, { m with io := m.io.set 0x41 (stat &&& 0xFB) }, r)

/-- `Ppu::step`.  `cycles` and the internal counter are u32 (wrap at
2^32); `ly` is u8 (wrap at 256).  The `render_scanline` call is dropped
(see the section comment). -/
def Ppu.step (p : Ppu) (cycles : Nat) (m : Mmu) : Ppu × Mmu × PpuStepResult :=
  let r : PpuStepResult := ⟨false, false⟩
  let lcdc := m.io.getD 0x40 0
  if lcdc &&& 0x80 = 0 then
    let io1 := m.io.set 0x44 0
    let io2 := io1.set 0x41 ((io1.getD 0x41 0) &&& 0xFC)
    ({ p with mode := PpuMode.HBlank, ly := 0, cycles := 0 },
     { m with io := io2 }, r)
  else
    let p := { p with cycles := (p.cycles + cycles) % 4294967296 }
    let s :=
      match p.mode with
      | PpuMode.OamSearch =>
        if p.cycles ≥ 80 then
          ({ p with cycles := p.cycles - 80, mode := PpuMode.PixelTransfer },
           m, r)
        else (p, m, r)
      | PpuMode.PixelTransfer =>
        if p.cycles ≥ 172 then
          let p := { p with cycles := p.cycles - 172, mode := PpuMode.HBlank }
          let stat := m.io.getD 0x41 0
          let pr :=
            if stat &&& 0x08 ≠ 0 then
              let pb := p.check_stat_interrupt
              (pb.1, { r with stat_interrupt := pb.2 })
            else (p, r)
          (pr.1, m.step_hblank_hdma, pr.2)
        else (p, m, r)
      | PpuMode.HBlank =>
        if p.cycles ≥ 204 then
          let p := { p with cycles := p.cycles - 204, ly := (p.ly + 1) % 256 }
          let m := { m with io := m.io.set 0x44 p.ly }
          if p.ly = 144 then
            let p := { p with mode := PpuMode.VBlank, window_line := 0 }
            let r := { r with vblank_interrupt := true }
            let stat := m.io.getD 0x41 0
            let pr :=
              if stat &&& 0x10 ≠ 0 then
                let pb := p.check_stat_interrupt
                (pb.1, { r with stat_interrupt := pb.2 })
              else (p, r)
            pr.1.check_lyc m pr.2
          else
            let p := { p with mode := PpuMode.OamSearch }
            let stat := m.io.getD 0x41 0
            let pr :=
              if stat &&& 0x20 ≠ 0 then
                let pb := p.check_stat_interrupt
                (pb.1, { r with stat_interrupt := pb.2 })
              else (p, r)
            pr.1.check_lyc m pr.2
        else (p, m, r)
      | PpuMode.VBlank =>
        if p.cycles ≥ 456 then
          let p := { p with cycles := p.cycles - 456, ly := (p.ly + 1) % 256 }
          let s1 :=
            if p.ly ≥ 154 then
              let p := { p with ly := 0, mode := PpuMode.OamSearch }
              let stat := m.io.getD 0x41 0
              let pr :=
                if stat &&& 0x20 ≠ 0 then
                  let pb := p.check_stat_interrupt
                  (pb.1, { r with stat_interrupt := pb.2 })
                else (p, r)
              (pr.1, m, pr.2)
            else (p, m, r)
          let m1 := { s1.2.1 with io := s1.2.1.io.set 0x44 s1.1.ly }
          s1.1.check_lyc m1 s1.2.2
        else (p, m, r)
    let stat := s.2.1.io.getD 0x41 0
    (s.1, { s.2.1 with io := s.2.1.io.set 0x41 ((stat &&& 0xFC) ||| s.1.mode.toNat) },
     s.2.2)

/-- Observable part of a step outcome: PPU state, io registers, result. -/
def ppuObs (s : Ppu × Mmu × PpuStepResult) : Ppu × List Nat × PpuStepResult :=
  (s.1, s.2.1.io, s.2.2)

lemma Mmu.step_hblank_hdma_inactive (m : Mmu) (hh : m.hdma_active = false) :
    m.step_hblank_hdma = m := by
  unfold Mmu.step_hblank_hdma
  rw [if_pos (Or.inl (by simp [hh]))]

set_option maxHeartbeats 1000000 in
/-- With no HBlank HDMA pending, `Ppu::step` changes only the io bytes
of the MMU. -/
lemma Ppu.step_mmu (p : Ppu) (c : Nat) (m : Mmu) (hh : m.hdma_active = false) :
    (p.step c m).2.1 = { m with io := (p.step c m).2.1.io } := by
  have hnh := Mmu.step_hblank_hdma_inactive m hh
  obtain ⟨mo, cy, ly, wl, sl⟩ := p
  simp only [Ppu.step, Ppu.check_lyc, Ppu.check_stat_interrupt, hnh]
  cases mo <;> (repeat' split) <;> rfl

lemma Ppu.step_chain (p p' : Ppu) (c : Nat) (m : Mmu) (io' : List Nat)
    (r : PpuStepResult) (hh : m.hdma_active = false)
    (hobs : ppuObs (p.step c m) = (p', io', r)) :
    p.step c m = (p', { m with io := io' }, r) := by
  have h1 := Ppu.step_mmu p c m hh
  have h2 : (p.step c m).1 = p' := congrArg Prod.fst hobs
  have h3 : (p.step c m).2.1.io = io' := congrArg (fun t => t.2.1) hobs
  have h4 : (p.step c m).2.2 = r := congrArg (fun t => t.2.2) hobs
  have h5 : (p.step c m).2.1 = { m with io := io' } := by rw [h1, h3]
  exact Prod.ext_iff.mpr ⟨h2, Prod.ext_iff.mpr ⟨h5, h4⟩⟩

/-- C3 trace: fresh PPU (as from `Ppu::new`). -/
def c3p0 : Ppu := ⟨PpuMode.OamSearch, 0, 0, 0, false⟩
/-- C3 trace io registers: LCD on (LCDC = 0x91), STAT = 0x08 (only the
HBlank interrupt source enabled), LYC = 200 (never matched). -/
def c3io0 : List Nat :=
  (((List.replicate 128 0).set 0x40 0x91).set 0x41 0x08).set 0x45 200
def c3m0 : Mmu := { c5m with dma_active := false, io := c3io0 }

def c3pa : Ppu := ⟨PpuMode.PixelTransfer, 0, 0, 0, false⟩
def c3pb : Ppu := ⟨PpuMode.HBlank, 0, 0, 0, true⟩
def c3pc : Ppu := ⟨PpuMode.OamSearch, 0, 1, 0, true⟩
def c3pd : Ppu := ⟨PpuMode.PixelTransfer, 0, 1, 0, true⟩
def c3pe : Ppu := ⟨PpuMode.HBlank, 0, 1, 0, true⟩

def c3ioa : List Nat := c3io0.set 0x41 0x0B
def c3iob : List Nat := c3ioa.set 0x41 0x08
def c3ioc : List Nat := (c3iob.set 0x44 1).set 0x41 0x0A
def c3iod : List Nat := c3ioc.set 0x41 0x0B
def c3ioe : List Nat := c3iod.set 0x41 0x08

def c3ma : Mmu := { c3m0 with io := c3ioa }
def c3mb : Mmu := { c3m0 with io := c3iob }
def c3mc : Mmu := { c3m0 with io := c3ioc }
def c3md : Mmu := { c3m0 with io := c3iod }

/-- One emulated cycle: `ppu.step(1, mmu)`, keeping PPU and MMU. -/
def ppuStep1 (s : Ppu × Mmu) : Ppu × Mmu :=
  ((s.1.step 1 s.2).1, (s.1.step 1 s.2).2.1)

/-- Timing projection of the PPU state: (mode, cycles-in-mode, LY). -/
def ppuProj (p : Ppu) : PpuMode × Nat × Nat := (p.mode, p.cycles, p.ly)

/-- Pure transition of the timing projection under one cycle (read off
the mode arms of `Ppu::step`). -/
def modeNext : PpuMode × Nat × Nat → PpuMode × Nat × Nat
  | (PpuMode.OamSearch, c, l) =>
      if c + 1 ≥ 80 then (PpuMode.PixelTransfer, c + 1 - 80, l)
      else (PpuMode.OamSearch, c + 1, l)
  | (PpuMode.PixelTransfer, c, l) =>
      if c + 1 ≥ 172 then (PpuMode.HBlank, c + 1 - 172, l)
      else (PpuMode.PixelTransfer, c + 1, l)
  | (PpuMode.HBlank, c, l) =>
      if c + 1 ≥ 204 then
        if (l + 1) % 256 = 144 then (PpuMode.VBlank, c + 1 - 204, (l + 1) % 256)
        else (PpuMode.OamSearch, c + 1 - 204, (l + 1) % 256)
      else (PpuMode.HBlank, c + 1, l)
  | (PpuMode.VBlank, c, l) =>
      if c + 1 ≥ 456 then
        if (l + 1) % 256 ≥ 154 then (PpuMode.OamSearch, c + 1 - 456, 0)
        else (PpuMode.VBlank, c + 1 - 456, (l + 1) % 256)
      else (PpuMode.VBlank, c + 1, l)

set_option maxHeartbeats 1000000 in
lemma ppuStep1_proj (p : Ppu) (m : Mmu)
    (hl : ¬ (m.io.getD 0x40 0 &&& 0x80 = 0))
    (hcy : p.cycles < 4294967295) :
    ppuProj (ppuStep1 (p, m)).1 = modeNext (ppuProj p) := by
  obtain ⟨mo, cy, ly, wl, sl⟩ := p
  have hcy2 : cy < 4294967295 := hcy
  have hm : (cy + 1) % 4294967296 = cy + 1 := Nat.mod_eq_of_lt (by omega)
  cases mo <;>
    (simp only [ppuStep1, Ppu.step, Ppu.check_lyc, Ppu.check_stat_interrupt,
      ppuProj, modeNext, hm]
     rw [if_neg hl]
     (repeat' split) <;> rfl)

lemma List.getD_set_ne (l : List Nat) (i j v d : Nat) (h : i ≠ j) :
    (l.set i v).getD j d = l.getD j d := by
  simp [List.getD, List.getElem?_set_ne h]

set_option maxHeartbeats 1000000 in
lemma Ppu.step_io_getD (p : Ppu) (c : Nat) (m : Mmu) (k : Nat)
    (hh : m.hdma_active = false) (h41 : (0x41 : Nat) ≠ k) (h44 : (0x44 : Nat) ≠ k) :
    (p.step c m).2.1.io.getD k 0 = m.io.getD k 0 := by
  have hnh := Mmu.step_hblank_hdma_inactive m hh
  obtain ⟨mo, cy, ly, wl, sl⟩ := p
  cases mo <;>
    (simp only [Ppu.step, Ppu.check_lyc, Ppu.check_stat_interrupt, hnh]
     (repeat' split) <;>
       simp only [List.getD_set_ne _ _ _ _ _ h41, List.getD_set_ne _ _ _ _ _ h44])

/-- The expected PPU timeline: after j single cycles of a frame,
(mode, cycles-in-mode, ly). -/
def schedule (j : Nat) : PpuMode × Nat × Nat :=
  let l := j / 456
  let c := j % 456
  if l < 144 then
    if c < 80 then (PpuMode.OamSearch, c, l)
    else if c < 252 then (PpuMode.PixelTransfer, c - 80, l)
    else (PpuMode.HBlank, c - 252, l)
  else if l < 154 then (PpuMode.VBlank, c, l)
  else (PpuMode.OamSearch, 0, 0)

lemma schedule_cycles_le (j : Nat) : (schedule j).2.1 ≤ 455 := by
  have hc : j % 456 < 456 := Nat.mod_lt _ (by norm_num)
  simp only [schedule]
  repeat' split
  all_goals simp
  all_goals omega

set_option maxHeartbeats 1000000 in
set_option maxRecDepth 10000 in
lemma schedule_step (j : Nat) (hj : j < 70224) :
    modeNext (schedule j) = schedule (j + 1) := by
  obtain ⟨l, c, rfl, hc⟩ : ∃ l c, j = 456 * l + c ∧ c < 456 :=
    ⟨j / 456, j % 456, by omega, by omega⟩
  have hl : l < 154 := by omega
  have h1 : (456 * l + c) / 456 = l := by omega
  have h2 : (456 * l + c) % 456 = c := by omega
  by_cases h455 : c = 455
  · subst h455
    have hj1 : 456 * l + 455 + 1 = 456 * (l + 1) := by ring
    rw [hj1]
    have h3 : (456 * (l + 1)) / 456 = l + 1 := by omega
    have h4 : (456 * (l + 1)) % 456 = 0 := by omega
    simp only [schedule, h1, h2, h3, h4]
    repeat' split
    all_goals simp only [modeNext]
    all_goals (repeat' split)
    all_goals (first
      | rfl
      | (exfalso; omega)
      | (simp only [Prod.mk.injEq, true_and, and_true]; omega))
  · have h3 : (456 * l + c + 1) / 456 = l := by omega
    have h4 : (456 * l + c + 1) % 456 = c + 1 := by omega
    simp only [schedule, h1, h2, h3, h4]
    repeat' split
    all_goals simp only [modeNext]
    all_goals (repeat' split)
    all_goals (first
      | rfl
      | (exfalso; omega)
      | (simp only [Prod.mk.injEq, true_and, and_true]; omega))

/-- Initial PPU state (`Ppu::new` / `Ppu::reset`). -/
def ppu0 : Ppu := ⟨PpuMode.OamSearch, 0, 0, 0, false⟩

/-- Running conditions for the frame theorem: the LCD stays enabled
(LCDC bit 7 of io[0x40]) and no HBlank HDMA transfer is pending. -/
def PpuInv (m : Mmu) : Prop :=
  ¬(m.io.getD 0x40 0 &&& 0x80 = 0) ∧ m.hdma_active = false

lemma ppuStep1_inv (s : Ppu × Mmu) (hI : PpuInv s.2) : PpuInv (ppuStep1 s).2 := by
  obtain ⟨h40, hh⟩ := hI
  constructor
  · have h := Ppu.step_io_getD s.1 1 s.2 0x40 hh (by norm_num) (by norm_num)
    show ¬((s.1.step 1 s.2).2.1.io.getD 0x40 0 &&& 0x80 = 0)
    rw [h]
    exact h40
  · have h := Ppu.step_mmu s.1 1 s.2 hh
    show (s.1.step 1 s.2).2.1.hdma_active = false
    rw [h]
    exact hh

lemma ppuRun_proj (m : Mmu) (hI : PpuInv m) :
    ∀ j : Nat, j ≤ 70224 →
      ppuProj (ppuStep1^[j] (ppu0, m)).1 = schedule j ∧
      PpuInv (ppuStep1^[j] (ppu0, m)).2 := by
  intro j
  induction j with
  | zero => intro _; exact ⟨rfl, hI⟩
  | succ n ih =>
    intro hn1
    obtain ⟨ih1, ih2⟩ := ih (by omega)
    rw [Function.iterate_succ_apply']
    set s := ppuStep1^[n] (ppu0, m) with hs
    have hcyc : s.1.cycles = (schedule n).2.1 := congrArg (fun t => t.2.1) ih1
    have hcy : s.1.cycles < 4294967295 := by
      have := schedule_cycles_le n
      omega
    refine ⟨?_, ppuStep1_inv s ih2⟩
    have hstep := ppuStep1_proj s.1 s.2 ih2.1 hcy
    calc ppuProj (ppuStep1 s).1 = modeNext (ppuProj s.1) := hstep
      _ = modeNext (schedule n) := by rw [ih1]
      _ = schedule (n + 1) := schedule_step n (by omega)

def c3me : Mmu := { c3m0 with io := c3ioe }

set_option maxHeartbeats 1000000 in
/-- The line is monotone under `Ppu::step`: nothing in the step function
ever lowers `stat_interrupt_line` (only `Ppu::new`/`Ppu::reset` do). -/
lemma ppu_stat_line_mono (p : Ppu) (c : Nat) (m : Mmu)
    (h : p.stat_interrupt_line = true) :
    (p.step c m).1.stat_interrupt_line = true := by
  obtain ⟨mo, cy, ly, wl, sl⟩ := p
  have h' : sl = true := h
  subst h'
  cases mo <;>
    (simp only [Ppu.step, Ppu.check_lyc, Ppu.check_stat_interrupt]
     (repeat' split) <;> rfl)

/-- C3, code-bug exhibit: the claim requires the combined STAT line to
return to 0 whenever no enabled source is active, so that two enabled
events separated by a source-free period each raise a STAT interrupt.
In the code `Ppu::check_stat_interrupt` only ever raises
`stat_interrupt_line` and nothing in `Ppu::step` lowers it (first two
conjuncts), so in the concrete trace below - HBlank STAT source enabled,
LYC never matched - the first HBlank entry raises a STAT interrupt but
the second one, a full source-free scanline later, returns
`stat_interrupt = false`. -/
theorem c3_stat_line_never_lowered :
    (∀ p : Ppu, (p.check_stat_interrupt).1.stat_interrupt_line = true ∧
      ((p.check_stat_interrupt).2 = true ↔ p.stat_interrupt_line = false)) ∧
    (∀ (p : Ppu) (c : Nat) (m : Mmu), p.stat_interrupt_line = true →
      (p.step c m).1.stat_interrupt_line = true) ∧
    (c3p0.step 80 c3m0 = (c3pa, c3ma, ⟨false, false⟩) ∧
     c3pa.step 172 c3ma = (c3pb, c3mb, ⟨false, true⟩) ∧
     c3pb.step 204 c3mb = (c3pc, c3mc, ⟨false, false⟩) ∧
     c3pc.step 80 c3mc = (c3pd, c3md, ⟨false, false⟩) ∧
     c3pd.step 172 c3md = (c3pe, c3me, ⟨false, false⟩)) ∧
    c3iob.getD 0x41 0 &&& 0x08 ≠ 0 ∧ c3iod.getD 0x41 0 &&& 0x08 ≠ 0 := by
  refine ⟨?_, ppu_stat_line_mono, ⟨?_, ?_, ?_, ?_, ?_⟩, by decide, by decide⟩
  · intro p
    refine ⟨rfl, ?_⟩
    cases hb : p.stat_interrupt_line <;>
      simp [Ppu.check_stat_interrupt, hb]
  all_goals exact Ppu.step_chain _ _ _ _ _ _ (by decide) (by decide)

/-- C3, witness: the hypothesised conjuncts of
`c3_stat_line_never_lowered` instantiated at the concrete post-first-
event state `c3pb`. -/
theorem c3_stat_line_never_lowered_witness :
    c3pb.stat_interrupt_line = true ∧
    (c3pb.step 204 c3mb).1.stat_interrupt_line = true ∧
    ((c3pb.check_stat_interrupt).2 = true ↔ c3pb.stat_interrupt_line = false) :=
  ⟨by decide, c3_stat_line_never_lowered.2.1 c3pb 204 c3mb (by decide),
   (c3_stat_line_never_lowered.1 c3pb).2⟩

/-- C4: with the LCD enabled throughout (and no HBlank HDMA pending),
the PPU visits, for each scanline 0..143, OamSearch for cycles 0..79,
PixelTransfer for cycles 80..251 (172 cycles) and HBlank for cycles
252..455 (204 cycles) of the line, stays in VBlank for the 4560 cycles
65664..70223 (lines 144..153), and after exactly 70224 single-cycle
steps of a frame returns to OamSearch with cycles = 0 and LY = 0. -/
theorem c4_frame_timing :
    ∀ m : Mmu, PpuInv m →
      (∀ line cyc : Nat, line < 144 → cyc < 456 →
        ppuProj (ppuStep1^[456 * line + cyc] (ppu0, m)).1 =
          if cyc < 80 then (PpuMode.OamSearch, cyc, line)
          else if cyc < 252 then (PpuMode.PixelTransfer, cyc - 80, line)
          else (PpuMode.HBlank, cyc - 252, line)) ∧
      (∀ j : Nat, 65664 ≤ j → j < 70224 →
        (ppuStep1^[j] (ppu0, m)).1.mode = PpuMode.VBlank ∧
        (ppuStep1^[j] (ppu0, m)).1.ly = j / 456) ∧
      ppuProj (ppuStep1^[70224] (ppu0, m)).1 = (PpuMode.OamSearch, 0, 0) := by
  intro m hI
  refine ⟨?_, ?_, ?_⟩
  · intro line cyc hline hcyc
    have h := (ppuRun_proj m hI (456 * line + cyc) (by omega)).1
    rw [h]
    have h1 : (456 * line + cyc) / 456 = line := by omega
    have h2 : (456 * line + cyc) % 456 = cyc := by omega
    simp only [schedule, h1, h2]
    rw [if_pos hline]
  · intro j hj1 hj2
    have h := (ppuRun_proj m hI j (by omega)).1
    have hl1 : ¬ (j / 456 < 144) := by omega
    have hl2 : j / 456 < 154 := by omega
    have hsch : schedule j = (PpuMode.VBlank, j % 456, j / 456) := by
      simp only [schedule]
      rw [if_neg hl1, if_pos hl2]
    constructor
    · have h5 := congrArg (fun t => t.1) h
      simpa [ppuProj, hsch] using h5
    · have h5 := congrArg (fun t => t.2.2) h
      simpa [ppuProj, hsch] using h5
  · have h := (ppuRun_proj m hI 70224 (by omega)).1
    rw [h]
    decide

def c4m : Mmu :=
  { c5m with dma_active := false, io := (List.replicate 128 0).set 0x40 0x91 }

set_option maxRecDepth 100000 in
/-- C4, witness at a concrete MMU with LCDC = 0x91. -/
theorem c4_frame_timing_witness :
    PpuInv c4m ∧
    ppuProj (ppuStep1^[456 * 0 + 0] (ppu0, c4m)).1 = (PpuMode.OamSearch, 0, 0) ∧
    (ppuStep1^[65664] (ppu0, c4m)).1.mode = PpuMode.VBlank ∧
    ppuProj (ppuStep1^[70224] (ppu0, c4m)).1 = (PpuMode.OamSearch, 0, 0) := by
  have hI : PpuInv c4m := ⟨by decide, by decide⟩
  have h := c4_frame_timing c4m hI
  refine ⟨hI, ?_, (h.2.1 65664 (by norm_num) (by norm_num)).1, h.2.2⟩
  have h0 := h.1 0 0 (by norm_num) (by norm_num)
  simpa using h0
